import Mathlib

/-
  Verification of the event-service wrappers of the
  BrainDrive Events Service Bridge example plugin.

  The embedding covers the two wrapper classes of the repository:
  * `ServiceExampleEventService` (src/unnamed/part_007), modelled as a pure
    state-passing machine over `ExState`;
  * `PluginEventService` together with `EventValidator` and the option
    validator of the utils file (src/src/services/eventService.ts), modelled
    over `PState`.

  JavaScript's duck-typed records (message contents, option bags, envelopes)
  are modelled by the inductive `JsVal`: an object is a list of string-keyed
  fields in insertion order, and spread/assignment is functional update of
  that list.  Wall-clock timestamps, `performance.now()` latencies and
  `Math.random`-based identifiers are nondeterministic inputs of the source;
  they enter the model as explicit oracle arguments (`StampOracle`), never as
  values invented by the model itself.  The injected host Bridge is external
  to the repository; the model records every delegation to it in trace
  fields of the state and takes the Bridge's outcome (`Except`) as an
  argument.
-/

/-- A JavaScript value, as far as the wrapper code inspects one:
strings, numbers, booleans, `undefined`, arrays, and plain objects
(a list of string-keyed fields in insertion order). -/
inductive JsVal : Type where
  | str : String → JsVal
  | num : Int → JsVal
  | bool : Bool → JsVal
  | undef : JsVal
  | arr : List JsVal → JsVal
  | obj : List (String × JsVal) → JsVal

/-- Read a field of an object field list; absent fields read as `undefined`,
as in JavaScript property access. -/
def getField (fs : List (String × JsVal)) (k : String) : JsVal :=
  match fs.find? (fun p => p.1 == k) with
  | some p => p.2
  | none => JsVal.undef

/-- Assign a field of an object field list: an existing key keeps its
position and gets the new value, a new key is appended — the semantics of a
later entry for `k` in an object literal with spread. -/
def setField (fs : List (String × JsVal)) (k : String) (v : JsVal) :
    List (String × JsVal) :=
  if fs.any (fun p => p.1 == k) then
    fs.map (fun p => if p.1 == k then (k, v) else p)
  else fs ++ [(k, v)]

/-- Property access `v.k` on a `JsVal`.  The wrapper only dereferences
objects here; arrays and primitives yield `undefined` for the (never
numeric) keys the wrapper uses. -/
def jsGet (v : JsVal) (k : String) : JsVal :=
  match v with
  | JsVal.obj fs => getField fs k
  | _ => JsVal.undef

/-- JavaScript truthiness, used for the `if (options.persist)` and
`if (!options)` tests. -/
def jsTruthy : JsVal → Bool
  | JsVal.str s => s ≠ ""
  | JsVal.num n => n ≠ 0
  | JsVal.bool b => b
  | JsVal.undef => false
  | JsVal.arr _ => true
  | JsVal.obj _ => true

/-- The test `typeof v === 'boolean'`. -/
def typeofBoolean : JsVal → Bool
  | JsVal.bool _ => true
  | _ => false

/-- The test `v !== undefined`. -/
def jsIsUndefined : JsVal → Bool
  | JsVal.undef => true
  | _ => false

/-- The test `typeof v === 'object'` with truthiness (arrays included, `undefined`
excluded); the guard of `validateEventOptions`. -/
def jsIsObjectLike : JsVal → Bool
  | JsVal.obj _ => true
  | JsVal.arr _ => true
  | _ => false

/-- Function `EventValidator.validateMessage` (eventService.ts lines 126-138):
fails when the message is not an object, or `message.type` is falsy or not
a string.  The warning log is a console side effect only. -/
def EventValidator.validateMessage (message : JsVal) : Bool :=
  match message with
  | JsVal.obj fs =>
    match getField fs "type" with
    | JsVal.str t => t ≠ ""
    | _ => false
  | JsVal.arr _ =>
    -- an array is `typeof 'object'` but has no "type" property
    false
  | _ => false

/-- Function `EventValidator.validateOptions` (eventService.ts lines 143-155):
fails when `options.remote` is not a boolean, or `options.persist` is
present but not a boolean.  No other field is inspected; the function only
logs on failure and never throws (it is a total function here). -/
def EventValidator.validateOptions (options : JsVal) : Bool :=
  if !typeofBoolean (jsGet options "remote") then false
  else if !jsIsUndefined (jsGet options "persist")
      && !typeofBoolean (jsGet options "persist") then false
  else true

/-- The test `['low', 'normal', 'high'].includes(w)`: true exactly for those three
string values (a non-string never equals them under strict equality). -/
def priorityInEnum (w : JsVal) : Bool :=
  match w with
  | JsVal.str p => ["low", "normal", "high"].contains p
  | _ => false

/-- Function `validateEventOptions` of the utils file (lines 745-766): returns an
`isValid` flag and an optional error text.  Note it accepts an absent
`remote`, and it is the only validator that inspects `priority`. -/
def validateEventOptions (options : JsVal) : Bool × Option String :=
  if !jsTruthy options || !jsIsObjectLike options then
    (false, some "Event options must be an object")
  else if !jsIsUndefined (jsGet options "remote")
      && !typeofBoolean (jsGet options "remote") then
    (false, some "remote option must be a boolean")
  else if !jsIsUndefined (jsGet options "persist")
      && !typeofBoolean (jsGet options "persist") then
    (false, some "persist option must be a boolean")
  else if !jsIsUndefined (jsGet options "priority")
      && !priorityInEnum (jsGet options "priority") then
    (false, some "priority must be one of: low, normal, high")
  else (true, none)

/-- The option-validity predicate exactly as claim C9 states it: false when
`remote` is not a boolean, or `persist` is present but not a boolean, or
`priority` is present but outside the enum.  Written from the claim's words,
to be compared with the code's validators. -/
def claimedValidOptions (options : JsVal) : Bool :=
  typeofBoolean (jsGet options "remote")
    && (jsIsUndefined (jsGet options "persist")
        || typeofBoolean (jsGet options "persist"))
    && (jsIsUndefined (jsGet options "priority")
        || priorityInEnum (jsGet options "priority"))

/-- What `EventValidator.validateOptions` actually decides, stated as a
single boolean expression (the amended claim C9 for that function). -/
def validatorOptionsOk (options : JsVal) : Bool :=
  typeofBoolean (jsGet options "remote")
    && (jsIsUndefined (jsGet options "persist")
        || typeofBoolean (jsGet options "persist"))

/-- What `validateEventOptions` actually decides, stated as a single
boolean expression (the amended claim C9 for that function). -/
def utilsOptionsOk (options : JsVal) : Bool :=
  jsIsObjectLike options
    && (jsIsUndefined (jsGet options "remote")
        || typeofBoolean (jsGet options "remote"))
    && (jsIsUndefined (jsGet options "persist")
        || typeofBoolean (jsGet options "persist"))
    && (jsIsUndefined (jsGet options "priority")
        || priorityInEnum (jsGet options "priority"))

/-- Source stamp and metadata of an outgoing message: the wall-clock ISO
timestamp `getCurrentTimestamp()`, the collision-resistant id
`generateId('msg')` and the measured `performance.now()` latency are
nondeterministic inputs of the source code; one `StampOracle` supplies
their values for one send. -/
structure StampOracle : Type where
  sentAt : String
  msgId : String
  latency : Nat

/-- One entry of the in-instance event log.  `createEventMonitorMessage`
also stamps a monitor id, timestamp, payload, latency and priority; those
come from the same clock/random oracles and are not inspected by any
operation, so the entry keeps the fields the code branches or reports on:
the event type, the human-readable text and the success flag. -/
structure LogEntry : Type where
  eventType : String
  text : String
  success : Bool
deriving DecidableEq

/-- A wrapped subscriber callback of `ServiceExampleEventService`:
`wid` is the identity of the freshly allocated `wrappedCallback` closure
(each `subscribeToMessages` call creates a new one), `orig` the identity of
the caller's callback it closes over. -/
structure WrappedCb : Type where
  wid : Nat
  orig : Nat
deriving DecidableEq

/-- The `Set.add` step on a channel's callback list: adding an already-present
reference is a no-op, a new reference is appended. -/
def setAdd (ws : List WrappedCb) (w : WrappedCb) : List WrappedCb :=
  if w ∈ ws then ws else ws ++ [w]

/-- The step `Map<string, Set<fn>>.get(k)!.add(w)`, creating the entry when absent
(subscribeToMessages lines 168-171). -/
def subscribersAdd (subs : List (String × List WrappedCb)) (k : String)
    (w : WrappedCb) : List (String × List WrappedCb) :=
  if subs.any (fun p => p.1 == k) then
    subs.map (fun p => if p.1 == k then (p.1, setAdd p.2 w) else p)
  else subs ++ [(k, [w])]

/-- The callback set registered for channel `k` (empty when absent). -/
def subsFor (k : String) (subs : List (String × List WrappedCb)) :
    List WrappedCb :=
  match subs.find? (fun p => p.1 == k) with
  | some p => p.2
  | none => []

/-- Instance state of `ServiceExampleEventService` (part_007 lines 29-47).
`available` is `!!this.eventService`; `startTime` is wall clock and never
branched on, so it is omitted.  The fields `bridgeSends`, `bridgeSubs` and
`deliveredTo` are observation traces: they record, in order, every
delegation to the injected external Bridge (`(target, envelope, succeeded)`
for `sendMessage`, `(moduleId, wrapper)` for `subscribeToMessages`) and
every invocation of a caller's callback `(orig, message)`; the TS object
performs these as calls rather than storing them, and no operation of the
model reads the traces back. -/
structure ExState : Type where
  available : Bool
  pluginId : String
  moduleId : String
  messageQueue : List JsVal
  subscribers : List (String × List WrappedCb)
  eventLog : List LogEntry
  messagesSent : Nat
  messagesReceived : Nat
  totalLatency : Nat
  errorCount : Nat
  nextWid : Nat
  bridgeSends : List (String × JsVal × Bool)
  bridgeSubs : List (String × WrappedCb)
  deliveredTo : List (Nat × JsVal)

/-- Constant `maxQueueSize` (addToQueue, part_007 line 284). -/
def maxQueueSize : Nat := 1000

/-- Constant `maxLogSize` (logEvent, part_007 line 403). -/
def maxLogSize : Nat := 500

/-- Method `logEvent` (part_007 lines 390-410): push a monitor entry and trim the
log to its last `maxLogSize` entries (`slice(-maxLogSize)`). -/
def logEventState (ty text : String) (s : ExState) : ExState :=
  let log2 := s.eventLog ++ [⟨ty, text, true⟩]
  { s with eventLog :=
      if log2.length > maxLogSize then log2.drop (log2.length - maxLogSize)
      else log2 }

/-- Method `logError` (part_007 lines 415-430): increments `errorCount`, pushes an
error entry (without trimming — unlike `logEvent`) and logs to the console.
The claims-relevant text is the first argument; the context only reaches
the console. -/
def logErrorState (text : String) (s : ExState) : ExState :=
  { s with errorCount := s.errorCount + 1,
           eventLog := s.eventLog ++ [⟨"error", text, false⟩] }

/-- The queue update of `addToQueue` (part_007 lines 280-287): push, then
if the length exceeds `maxQueueSize`, keep the last `maxQueueSize` entries
(`slice(-maxQueueSize)`). -/
def addToQueueList (q : List JsVal) (m : JsVal) : List JsVal :=
  let q2 := q ++ [m]
  if q2.length > maxQueueSize then q2.drop (q2.length - maxQueueSize) else q2

/-- Method `addToQueue` (part_007 lines 280-293): queue update plus the
`queue.added` monitor entry. -/
def ServiceExampleEventService.addToQueue (m : JsVal) (s : ExState) : ExState :=
  logEventState "queue.added" "Message added to queue"
    { s with messageQueue := addToQueueList s.messageQueue m }

/-- The stamped envelope of part_007's `sendMessage` (lines 85-96):
`(... message, _source: (pluginId, moduleId), _metadata: (sentAt, options,
messageId))` — a spread of the caller's content followed by assignment of
the two underscore fields, in the source's key order. -/
def enhanceMessage (pid mid : String) (o : StampOracle) (options : JsVal)
    (message : JsVal) : JsVal :=
  let fs := match message with
    | JsVal.obj fs => fs
    | _ => []
  JsVal.obj (setField (setField fs "_source"
      (JsVal.obj [("pluginId", JsVal.str pid), ("moduleId", JsVal.str mid)]))
    "_metadata"
      (JsVal.obj [("sentAt", JsVal.str o.sentAt), ("options", options),
                  ("messageId", JsVal.str o.msgId)]))

/-- Method `sendMessage` of `ServiceExampleEventService` (part_007 lines 75-123).
The injected Bridge's `sendMessage` is the external argument `bridge`; its
outcome decides the try/catch.  On the unavailable path the method logs an
error and returns.  On a Bridge exception the catch increments
`errorCount` and calls `logError` (which increments it again); nothing is
re-raised.  On success: metrics, the `message.sent` monitor entry, and —
only when `options.persist` is truthy — the enqueue. -/
def ServiceExampleEventService.sendMessage
    (bridge : String → JsVal → JsVal → Except String Unit)
    (o : StampOracle) (s : ExState) (target : String) (message : JsVal)
    (options : JsVal) : ExState :=
  if s.available = false then
    logErrorState "Event service not available" s
  else
    let enhanced := enhanceMessage s.pluginId s.moduleId o options message
    match bridge target enhanced options with
    | Except.error _ =>
      let s1 := { s with bridgeSends := s.bridgeSends ++ [(target, enhanced, false)] }
      logErrorState ("Failed to send message to " ++ target)
        { s1 with errorCount := s1.errorCount + 1 }
    | Except.ok _ =>
      let s1 := { s with
        bridgeSends := s.bridgeSends ++ [(target, enhanced, true)],
        messagesSent := s.messagesSent + 1,
        totalLatency := s.totalLatency + o.latency }
      let s2 := logEventState "message.sent" ("Message sent to " ++ target) s1
      if jsTruthy (jsGet options "persist") then
        ServiceExampleEventService.addToQueue enhanced s2
      else s2

/-- The body of the `wrappedCallback` closure created by
`subscribeToMessages` (part_007 lines 139-165): bump `messagesReceived`,
log `message.received`, invoke the caller's callback (recorded in the
`deliveredTo` trace), then either log `message.processed` or — when the
caller's callback throws, which the oracle `cbThrows` decides — catch,
bump `errorCount` and `logError` (a second bump). -/
def runWrappedCallback (cbThrows : Nat → JsVal → Bool) (w : WrappedCb)
    (m : JsVal) (s : ExState) : ExState :=
  let s1 := logEventState "message.received"
      ("Message received by " ++ s.moduleId)
      { s with messagesReceived := s.messagesReceived + 1 }
  let s2 := { s1 with deliveredTo := s1.deliveredTo ++ [(w.orig, m)] }
  if cbThrows w.orig m then
    logErrorState "Error processing received message"
      { s2 with errorCount := s2.errorCount + 1 }
  else
    logEventState "message.processed" ("Message processed by " ++ s.moduleId) s2

/-- A replay callback: a state transformer plus a did-it-throw flag (state
changes made before a throw persist, as in TypeScript). -/
def wrappedCallbackOf (cbThrows : Nat → JsVal → Bool) (w : WrappedCb) :
    JsVal → ExState → ExState × Bool :=
  fun m st => (runWrappedCallback cbThrows w m st, false)

/-- Method `replayQueuedMessages` (part_007 lines 298-312): for each queued
envelope, invoke the callback inside a try/catch — a throw is caught and
`logError`-ed and the loop continues — then log `queue.replayed`.  The
only call site passes the freshly created `wrappedCallback`
(`wrappedCallbackOf`), whose own catch means it never throws. -/
def ServiceExampleEventService.replayQueuedMessages
    (callback : JsVal → ExState → ExState × Bool) (s : ExState) : ExState :=
  let s1 := s.messageQueue.foldl (fun st m =>
      let r := callback m st
      if r.2 then logErrorState "Error replaying queued message" r.1
      else r.1) s
  logEventState "queue.replayed" "Replayed queued messages" s1

/-- Method `subscribeToMessages` of `ServiceExampleEventService` (part_007 lines
131-187).  A fresh `wrappedCallback` closure is allocated (`nextWid`) on
every call, added to this module's subscriber set, and delegated to the
external Bridge (recorded in `bridgeSubs`; the Bridge's own subscribe is
modelled as not throwing, which every claim here assumes).  When
`options.persist` is truthy and the queue is non-empty, the queued backlog
is replayed synchronously to the new wrapper before the call returns. -/
def ServiceExampleEventService.subscribeToMessages
    (cbThrows : Nat → JsVal → Bool) (s : ExState) (cb : Nat)
    (options : JsVal) : ExState :=
  if s.available = false then
    logErrorState "Event service not available" s
  else
    let w : WrappedCb := ⟨s.nextWid, cb⟩
    let s1 := { s with
      nextWid := s.nextWid + 1,
      subscribers := subscribersAdd s.subscribers s.moduleId w,
      bridgeSubs := s.bridgeSubs ++ [(s.moduleId, w)] }
    let s2 := logEventState "subscription.created"
        ("Subscribed to messages for " ++ s.moduleId) s1
    if jsTruthy (jsGet options "persist") && !s2.messageQueue.isEmpty then
      ServiceExampleEventService.replayQueuedMessages
        (wrappedCallbackOf cbThrows w) s2
    else s2

/-- The per-target envelope of `broadcastMessage` (part_007 lines 247-254):
the caller's content spread plus the `_broadcast` correlation field. -/
def broadcastEnvelope (bid : String) (targets : List String) (t : String)
    (m : JsVal) : JsVal :=
  let fs := match m with
    | JsVal.obj fs => fs
    | _ => []
  JsVal.obj (setField fs "_broadcast"
    (JsVal.obj [("id", JsVal.str bid),
                ("targets", JsVal.arr (targets.map JsVal.str)),
                ("currentTarget", JsVal.str t)]))

/-- Method `broadcastMessage` (part_007 lines 243-264): one correlation id
(`generateId('broadcast')`, an oracle input), then one `sendMessage` per
target — each with its own stamp oracle — then the `broadcast.sent`
monitor entry.  The method returns nothing: there is no aggregate
per-target result. -/
def ServiceExampleEventService.broadcastMessage
    (bridge : String → JsVal → JsVal → Except String Unit)
    (oracles : String → StampOracle) (bid : String) (s : ExState)
    (targets : List String) (m : JsVal) (options : JsVal) : ExState :=
  let s1 := targets.foldl (fun st t =>
      ServiceExampleEventService.sendMessage bridge (oracles t) st t
        (broadcastEnvelope bid targets t m) options) s
  logEventState "broadcast.sent" "Broadcast sent" s1

/-- The constructor (part_007 lines 44-47): no bridge yet, empty queue,
log and registry, zeroed counters. -/
def ServiceExampleEventService.mk (pid mid : String) : ExState :=
  ⟨false, pid, mid, [], [], [], 0, 0, 0, 0, 0, [], [], []⟩

/-- Method `initialize(eventService)` (part_007 lines 52-55): store the bridge —
the instance becomes available — and log `service.initialized`. -/
def ServiceExampleEventService.initializeService (s : ExState) : ExState :=
  logEventState "service.initialized" "Event service initialized"
    { s with available := true }

/-- Modelled from the spec: the host Bridge — external to this repository
(spec section 6) — delivers an incoming message for a channel by invoking
each callback that was registered with it for that channel, once, in
registration order.  Used only to observe how many times a caller's
callback runs per delivered message. -/
def bridgeDeliver (cbThrows : Nat → JsVal → Bool) (mid : String) (m : JsVal)
    (s : ExState) : ExState :=
  (s.bridgeSubs.filter (fun p => p.1 == mid)).foldl
    (fun st p => runWrappedCallback cbThrows p.2 m st) s

/-- Number of recorded invocations of the caller callback `cb`. -/
def deliveriesTo (cb : Nat) (s : ExState) : Nat :=
  (s.deliveredTo.filter (fun p => p.1 == cb)).length

/-- Number of Bridge subscription registrations for channel `mid` whose
wrapper closes over the caller callback `cb`. -/
def countRegs (cb : Nat) (mid : String) (regs : List (String × WrappedCb)) : Nat :=
  (regs.filter (fun p => p.1 == mid && p.2.orig == cb)).length

/-- A Bridge whose `sendMessage` always succeeds. -/
def bridgeOk : String → JsVal → JsVal → Except String Unit :=
  fun _ _ _ => Except.ok ()

/-- A Bridge whose `sendMessage` always throws. -/
def bridgeFail : String → JsVal → JsVal → Except String Unit :=
  fun _ _ _ => Except.error "bridge boom"

/-- A Bridge whose `sendMessage` throws exactly for target `b`. -/
def bridgeFailOn (b : String) : String → JsVal → JsVal → Except String Unit :=
  fun t _ _ => if t = b then Except.error "bridge boom" else Except.ok ()

/-- One `sendMessage` call of a test run: target, caller content, options
and the stamp oracle for that call. -/
structure SendCall : Type where
  target : String
  message : JsVal
  options : JsVal
  oracle : StampOracle

/-- A sequence of `sendMessage` calls against the always-succeeding
Bridge. -/
def runSends (sends : List SendCall) (s : ExState) : ExState :=
  sends.foldl (fun st c =>
    ServiceExampleEventService.sendMessage bridgeOk c.oracle st c.target
      c.message c.options) s

/-- The last `n` elements of a list (the value of `slice(-n)` on a longer
array). -/
def takeLast (n : Nat) (xs : List α) : List α := xs.drop (xs.length - n)

/-- Class `EventServiceError` (eventService.ts lines 112-117): a message plus a
stable machine-readable code. -/
structure EventServiceError : Type where
  text : String
  code : String
deriving DecidableEq

/-- Instance state of `PluginEventService` (eventService.ts lines 179-193).
`connected` covers `serviceBridge !== undefined && isConnected`, which
`setServiceBridge` sets together.  `subscriptions` is the
`Set<Function>` of original caller callbacks (by reference identity,
modelled as `Nat` ids).  `bridgeSends` and `bridgeSubs` are observation
traces of the delegations to the external Bridge, as in `ExState`. -/
structure PState : Type where
  pluginId : String
  moduleId : String
  connected : Bool
  messageCount : Nat
  subscriptions : List Nat
  bridgeSends : List (String × JsVal × Bool)
  bridgeSubs : List (String × Nat)

/-- The stamped envelope of `PluginEventService.sendMessage` (lines
268-281): spread of the caller's content, then `_source` and `_metadata`
with `messageId` built from the plugin id, module id and the incremented
message counter. -/
def messageWithSource (pid mid : String) (sentAt : String) (count : Nat)
    (options : JsVal) (message : JsVal) : JsVal :=
  let fs := match message with
    | JsVal.obj fs => fs
    | _ => []
  JsVal.obj (setField (setField fs "_source"
      (JsVal.obj [("pluginId", JsVal.str pid), ("moduleId", JsVal.str mid)]))
    "_metadata"
      (JsVal.obj [("sentAt", JsVal.str sentAt),
                  ("messageId",
                    JsVal.str (pid ++ "_" ++ mid ++ "_" ++ toString count)),
                  ("options", options)]))

/-- Method `PluginEventService.sendMessage` (eventService.ts lines 246-305).
Returns the outcome (a thrown `EventServiceError` or unit) together with
the instance state after the call — mutations made before a throw persist,
as in TypeScript; note `++this.messageCount` happens before the Bridge is
invoked, so a Bridge exception still leaves the counter incremented. -/
def PluginEventService.sendMessage
    (bridge : String → JsVal → JsVal → Except String Unit)
    (sentAt : String) (s : PState) (target : String) (message : JsVal)
    (options : JsVal) : Except EventServiceError Unit × PState :=
  if s.connected = false then
    (Except.error ⟨"Event Service not available. Ensure setServiceBridge() was called.",
      "SERVICE_UNAVAILABLE"⟩, s)
  else if target = "" then
    (Except.error ⟨"Target module ID must be a non-empty string",
      "INVALID_TARGET"⟩, s)
  else if EventValidator.validateMessage message = false then
    (Except.error ⟨"Invalid message format", "INVALID_MESSAGE"⟩, s)
  else if EventValidator.validateOptions options = false then
    (Except.error ⟨"Invalid event options", "INVALID_OPTIONS"⟩, s)
  else
    let count := s.messageCount + 1
    let enhanced := messageWithSource s.pluginId s.moduleId sentAt count
        options message
    match bridge target enhanced options with
    | Except.ok _ =>
      (Except.ok (), { s with
        messageCount := count,
        bridgeSends := s.bridgeSends ++ [(target, enhanced, true)] })
    | Except.error e =>
      (Except.error ⟨"Failed to send message: " ++ e, "SEND_FAILED"⟩,
        { s with
          messageCount := count,
          bridgeSends := s.bridgeSends ++ [(target, enhanced, false)] })

/-- Method `PluginEventService.subscribeToMessages` (eventService.ts lines
317-373).  Callbacks are function references, so the `INVALID_CALLBACK`
check always passes here.  The original callback — not the logging
`enhancedCallback` wrapper — is both tracked in the `Set` (set semantics:
re-adding the same reference leaves the set unchanged) and handed to the
external Bridge, once per call (the Bridge's subscribe is modelled as not
throwing). -/
def PluginEventService.subscribeToMessages (s : PState) (cb : Nat)
    (options : JsVal) : Except EventServiceError Unit × PState :=
  if s.connected = false then
    (Except.error ⟨"Event Service not available. Ensure setServiceBridge() was called.",
      "SERVICE_UNAVAILABLE"⟩, s)
  else if EventValidator.validateOptions options = false then
    (Except.error ⟨"Invalid event options", "INVALID_OPTIONS"⟩, s)
  else
    let subs := if cb ∈ s.subscriptions then s.subscriptions
                else s.subscriptions ++ [cb]
    (Except.ok (), { s with
      subscriptions := subs,
      bridgeSubs := s.bridgeSubs ++ [(s.moduleId, cb)] })

/-- The `PluginEventService` constructor (lines 187-193). -/
def PluginEventService.mk (pid mid : String) : PState :=
  ⟨pid, mid, false, 0, [], [], []⟩

/-- A heap of JavaScript arrays, for the aliasing facts of claim C10:
`cells` holds each allocated array's contents, an array reference is an
index into it, and the spread `[...xs]` is an allocation of a fresh
array. -/
structure ArrayHeap (α : Type) : Type where
  cells : List (List α)

/-- Dereference an array. -/
def ArrayHeap.read (h : ArrayHeap α) (r : Nat) : List α :=
  h.cells[r]?.getD []

/-- Mutate an array in place (what a caller writing to a returned array
does). -/
def ArrayHeap.write (h : ArrayHeap α) (r : Nat) (xs : List α) : ArrayHeap α :=
  ⟨h.cells.set r xs⟩

/-- Allocate a fresh array holding `xs`; returns the new heap and the new
reference. -/
def ArrayHeap.alloc (h : ArrayHeap α) (xs : List α) : ArrayHeap α × Nat :=
  (⟨h.cells ++ [xs]⟩, h.cells.length)

/-- Method `getQueueStatus` (part_007 lines 317-322): reads `this.messageQueue`
through its reference and returns its length together with a freshly
allocated copy (`[...this.messageQueue]`).  No instance field is
assigned. -/
def ServiceExampleEventService.getQueueStatus (h : ArrayHeap JsVal)
    (queueRef : Nat) : ArrayHeap JsVal × Nat × Nat :=
  let contents := h.read queueRef
  let a := h.alloc contents
  (a.1, contents.length, a.2)

/-- Method `getEventLog` (part_007 lines 435-437): returns a freshly allocated
copy `[...this.eventLog]` of the event log.  No instance field is
assigned. -/
def ServiceExampleEventService.getEventLog (h : ArrayHeap LogEntry)
    (logRef : Nat) : ArrayHeap LogEntry × Nat :=
  let a := h.alloc (h.read logRef)
  (a.1, a.2)

theorem getField_cons_pos (p : String × JsVal) (fs : List (String × JsVal))
    (k : String) (h : p.1 = k) : getField (p :: fs) k = p.2 := by
  simp [getField, List.find?_cons_of_pos, h]

theorem getField_cons_neg (p : String × JsVal) (fs : List (String × JsVal))
    (k : String) (h : ¬ p.1 = k) : getField (p :: fs) k = getField fs k := by
  simp only [getField, List.find?]
  have : (p.1 == k) = false := by simp [h]
  simp [this]

theorem getField_setField_self (fs : List (String × JsVal)) (k : String)
    (v : JsVal) : getField (setField fs k v) k = v := by
  by_cases h : fs.any (fun p => p.1 == k)
  · simp only [setField, h, if_pos]
    induction fs with
    | nil => simp at h
    | cons p ps ih =>
      by_cases hp : p.1 = k
      · simp only [List.map_cons, hp]
        simp [getField_cons_pos]
      · have hpk : (p.1 == k) = false := by simp [hp]
        simp only [List.map_cons, hpk, if_neg, Bool.false_eq_true, not_false_iff]
        rw [getField_cons_neg _ _ _ hp]
        simp only [List.any_cons, hpk, Bool.false_or] at h
        exact ih h
  · simp only [setField]
    rw [if_neg (by simp [h])]
    induction fs with
    | nil => simp [getField]
    | cons p ps ih =>
      simp [List.any_cons] at h
      rw [List.cons_append, getField_cons_neg _ _ _ (by simpa using h.1)]
      exact ih (by simp [h.2])

theorem getField_map_setkey (fs : List (String × JsVal)) (k k' : String)
    (v : JsVal) (h : ¬ k = k') :
    getField (fs.map (fun p => if p.1 == k' then (k', v) else p)) k
      = getField fs k := by
  induction fs with
  | nil => rfl
  | cons p ps ih =>
    by_cases hp : p.1 = k'
    · have hb : (p.1 == k') = true := by simp [hp]
      simp only [List.map_cons, hb, if_true]
      rw [getField_cons_neg (k', v) _ _ (fun hk => h (Eq.symm hk))]
      rw [getField_cons_neg p _ _ (fun hk => h (hk.symm.trans hp))]
      exact ih
    · have hb : (p.1 == k') = false := by simp [hp]
      simp only [List.map_cons, hb, Bool.false_eq_true, if_false]
      by_cases hk : p.1 = k
      · rw [getField_cons_pos _ _ _ hk, getField_cons_pos _ _ _ hk]
      · rw [getField_cons_neg _ _ _ hk, getField_cons_neg _ _ _ hk]
        exact ih

theorem getField_append_single_ne (fs : List (String × JsVal)) (k k' : String)
    (v : JsVal) (h : ¬ k = k') :
    getField (fs ++ [(k', v)]) k = getField fs k := by
  induction fs with
  | nil =>
    simp only [List.nil_append]
    rw [getField_cons_neg (k', v) _ _ (fun hk => h (Eq.symm hk))]
  | cons p ps ih =>
    by_cases hk : p.1 = k
    · rw [List.cons_append, getField_cons_pos _ _ _ hk, getField_cons_pos _ _ _ hk]
    · rw [List.cons_append, getField_cons_neg _ _ _ hk, getField_cons_neg _ _ _ hk]
      exact ih

theorem getField_setField_ne (fs : List (String × JsVal)) (k k' : String)
    (v : JsVal) (h : ¬ k = k') : getField (setField fs k' v) k = getField fs k := by
  unfold setField
  by_cases ha : fs.any (fun p => p.1 == k')
  · rw [if_pos ha]
    exact getField_map_setkey fs k k' v h
  · rw [if_neg ha]
    exact getField_append_single_ne fs k k' v h

theorem takeLast_of_le {α : Type} {n : Nat} {xs : List α}
    (h : xs.length ≤ n) : takeLast n xs = xs := by
  simp [takeLast, Nat.sub_eq_zero_of_le h]

theorem length_takeLast {α : Type} (n : Nat) (xs : List α) :
    (takeLast n xs).length = min xs.length n := by
  simp [takeLast]
  omega

theorem takeLast_append_of_le {α : Type} (n : Nat) (xs ys : List α)
    (h : n ≤ ys.length) :
    takeLast n (xs ++ ys) = takeLast n ys := by
  simp only [takeLast, List.length_append]
  rw [show xs.length + ys.length - n = xs.length + (ys.length - n) by omega]
  rw [List.drop_append]

theorem takeLast_takeLast_append {α : Type} (n : Nat) (xs ys : List α) :
    takeLast n (takeLast n xs ++ ys) = takeLast n (xs ++ ys) := by
  by_cases h : xs.length ≤ n
  · rw [takeLast_of_le h]
  · have hxs : xs = xs.take (xs.length - n) ++ takeLast n xs :=
      (List.take_append_drop _ _).symm
    conv_rhs => rw [hxs]
    rw [List.append_assoc]
    rw [takeLast_append_of_le n (xs.take (xs.length - n)) (takeLast n xs ++ ys)
      (by rw [List.length_append, length_takeLast]; omega)]

theorem addToQueueList_eq (q : List JsVal) (m : JsVal) :
    addToQueueList q m = takeLast maxQueueSize (q ++ [m]) := by
  unfold addToQueueList takeLast
  by_cases h2 : (q ++ [m]).length > maxQueueSize
  · simp only [h2, if_pos]
  · simp only [h2, if_neg, Bool.false_eq_true, not_false_iff]
    have h3 : (q ++ [m]).length - maxQueueSize = 0 := by
      simp only [List.length_append, List.length_cons, List.length_nil] at h2 ⊢
      omega
    rw [h3, List.drop_zero]

theorem length_addToQueueList (q : List JsVal) (m : JsVal) :
    (addToQueueList q m).length ≤ maxQueueSize := by
  rw [addToQueueList_eq q m, length_takeLast]
  omega

theorem foldl_addToQueueList (msgs : List JsVal) :
    ∀ q : List JsVal, q.length ≤ maxQueueSize →
    msgs.foldl addToQueueList q = takeLast maxQueueSize (q ++ msgs) := by
  induction msgs with
  | nil => intro q h; simp [takeLast_of_le h]
  | cons m ms ih =>
    intro q h
    simp only [List.foldl_cons]
    rw [addToQueueList_eq q m]
    rw [ih _ (by rw [length_takeLast]; omega)]
    rw [takeLast_takeLast_append]
    simp

@[simp] theorem logEventState_available (ty tx : String) (s : ExState) :
    (logEventState ty tx s).available = s.available := rfl

@[simp] theorem logEventState_pluginId (ty tx : String) (s : ExState) :
    (logEventState ty tx s).pluginId = s.pluginId := rfl

@[simp] theorem logEventState_moduleId (ty tx : String) (s : ExState) :
    (logEventState ty tx s).moduleId = s.moduleId := rfl

@[simp] theorem logEventState_messageQueue (ty tx : String) (s : ExState) :
    (logEventState ty tx s).messageQueue = s.messageQueue := rfl

@[simp] theorem logEventState_subscribers (ty tx : String) (s : ExState) :
    (logEventState ty tx s).subscribers = s.subscribers := rfl

@[simp] theorem logEventState_messagesSent (ty tx : String) (s : ExState) :
    (logEventState ty tx s).messagesSent = s.messagesSent := rfl

@[simp] theorem logEventState_messagesReceived (ty tx : String) (s : ExState) :
    (logEventState ty tx s).messagesReceived = s.messagesReceived := rfl

@[simp] theorem logEventState_totalLatency (ty tx : String) (s : ExState) :
    (logEventState ty tx s).totalLatency = s.totalLatency := rfl

@[simp] theorem logEventState_errorCount (ty tx : String) (s : ExState) :
    (logEventState ty tx s).errorCount = s.errorCount := rfl

@[simp] theorem logEventState_nextWid (ty tx : String) (s : ExState) :
    (logEventState ty tx s).nextWid = s.nextWid := rfl

@[simp] theorem logEventState_bridgeSends (ty tx : String) (s : ExState) :
    (logEventState ty tx s).bridgeSends = s.bridgeSends := rfl

@[simp] theorem logEventState_bridgeSubs (ty tx : String) (s : ExState) :
    (logEventState ty tx s).bridgeSubs = s.bridgeSubs := rfl

@[simp] theorem logEventState_deliveredTo (ty tx : String) (s : ExState) :
    (logEventState ty tx s).deliveredTo = s.deliveredTo := rfl

@[simp] theorem logErrorState_available (tx : String) (s : ExState) :
    (logErrorState tx s).available = s.available := rfl

@[simp] theorem logErrorState_pluginId (tx : String) (s : ExState) :
    (logErrorState tx s).pluginId = s.pluginId := rfl

@[simp] theorem logErrorState_moduleId (tx : String) (s : ExState) :
    (logErrorState tx s).moduleId = s.moduleId := rfl

@[simp] theorem logErrorState_messageQueue (tx : String) (s : ExState) :
    (logErrorState tx s).messageQueue = s.messageQueue := rfl

@[simp] theorem logErrorState_subscribers (tx : String) (s : ExState) :
    (logErrorState tx s).subscribers = s.subscribers := rfl

@[simp] theorem logErrorState_messagesSent (tx : String) (s : ExState) :
    (logErrorState tx s).messagesSent = s.messagesSent := rfl

@[simp] theorem logErrorState_messagesReceived (tx : String) (s : ExState) :
    (logErrorState tx s).messagesReceived = s.messagesReceived := rfl

@[simp] theorem logErrorState_totalLatency (tx : String) (s : ExState) :
    (logErrorState tx s).totalLatency = s.totalLatency := rfl

@[simp] theorem logErrorState_nextWid (tx : String) (s : ExState) :
    (logErrorState tx s).nextWid = s.nextWid := rfl

@[simp] theorem logErrorState_bridgeSends (tx : String) (s : ExState) :
    (logErrorState tx s).bridgeSends = s.bridgeSends := rfl

@[simp] theorem logErrorState_bridgeSubs (tx : String) (s : ExState) :
    (logErrorState tx s).bridgeSubs = s.bridgeSubs := rfl

@[simp] theorem logErrorState_deliveredTo (tx : String) (s : ExState) :
    (logErrorState tx s).deliveredTo = s.deliveredTo := rfl

@[simp] theorem logErrorState_errorCount (tx : String) (s : ExState) :
    (logErrorState tx s).errorCount = s.errorCount + 1 := rfl

@[simp] theorem logErrorState_eventLog (tx : String) (s : ExState) :
    (logErrorState tx s).eventLog = s.eventLog ++ [⟨"error", tx, false⟩] := rfl

@[simp] theorem addToQueue_messageQueue (m : JsVal) (s : ExState) :
    (ServiceExampleEventService.addToQueue m s).messageQueue
      = addToQueueList s.messageQueue m := rfl

@[simp] theorem addToQueue_available (m : JsVal) (s : ExState) :
    (ServiceExampleEventService.addToQueue m s).available = s.available := rfl

@[simp] theorem addToQueue_pluginId (m : JsVal) (s : ExState) :
    (ServiceExampleEventService.addToQueue m s).pluginId = s.pluginId := rfl

@[simp] theorem addToQueue_moduleId (m : JsVal) (s : ExState) :
    (ServiceExampleEventService.addToQueue m s).moduleId = s.moduleId := rfl

@[simp] theorem addToQueue_subscribers (m : JsVal) (s : ExState) :
    (ServiceExampleEventService.addToQueue m s).subscribers = s.subscribers := rfl

@[simp] theorem addToQueue_messagesSent (m : JsVal) (s : ExState) :
    (ServiceExampleEventService.addToQueue m s).messagesSent = s.messagesSent := rfl

@[simp] theorem addToQueue_messagesReceived (m : JsVal) (s : ExState) :
    (ServiceExampleEventService.addToQueue m s).messagesReceived = s.messagesReceived := rfl

@[simp] theorem addToQueue_totalLatency (m : JsVal) (s : ExState) :
    (ServiceExampleEventService.addToQueue m s).totalLatency = s.totalLatency := rfl

@[simp] theorem addToQueue_errorCount (m : JsVal) (s : ExState) :
    (ServiceExampleEventService.addToQueue m s).errorCount = s.errorCount := rfl

@[simp] theorem addToQueue_nextWid (m : JsVal) (s : ExState) :
    (ServiceExampleEventService.addToQueue m s).nextWid = s.nextWid := rfl

@[simp] theorem addToQueue_bridgeSends (m : JsVal) (s : ExState) :
    (ServiceExampleEventService.addToQueue m s).bridgeSends = s.bridgeSends := rfl

@[simp] theorem addToQueue_bridgeSubs (m : JsVal) (s : ExState) :
    (ServiceExampleEventService.addToQueue m s).bridgeSubs = s.bridgeSubs := rfl

@[simp] theorem addToQueue_deliveredTo (m : JsVal) (s : ExState) :
    (ServiceExampleEventService.addToQueue m s).deliveredTo = s.deliveredTo := rfl

@[simp] theorem runWrappedCallback_messageQueue (cbT : Nat → JsVal → Bool)
    (w : WrappedCb) (m : JsVal) (s : ExState) :
    (runWrappedCallback cbT w m s).messageQueue = s.messageQueue := by
  unfold runWrappedCallback
  cases hc : cbT w.orig m <;> rfl

@[simp] theorem runWrappedCallback_available (cbT : Nat → JsVal → Bool)
    (w : WrappedCb) (m : JsVal) (s : ExState) :
    (runWrappedCallback cbT w m s).available = s.available := by
  unfold runWrappedCallback
  cases hc : cbT w.orig m <;> rfl

@[simp] theorem runWrappedCallback_pluginId (cbT : Nat → JsVal → Bool)
    (w : WrappedCb) (m : JsVal) (s : ExState) :
    (runWrappedCallback cbT w m s).pluginId = s.pluginId := by
  unfold runWrappedCallback
  cases hc : cbT w.orig m <;> rfl

@[simp] theorem runWrappedCallback_moduleId (cbT : Nat → JsVal → Bool)
    (w : WrappedCb) (m : JsVal) (s : ExState) :
    (runWrappedCallback cbT w m s).moduleId = s.moduleId := by
  unfold runWrappedCallback
  cases hc : cbT w.orig m <;> rfl

@[simp] theorem runWrappedCallback_nextWid (cbT : Nat → JsVal → Bool)
    (w : WrappedCb) (m : JsVal) (s : ExState) :
    (runWrappedCallback cbT w m s).nextWid = s.nextWid := by
  unfold runWrappedCallback
  cases hc : cbT w.orig m <;> rfl

@[simp] theorem runWrappedCallback_subscribers (cbT : Nat → JsVal → Bool)
    (w : WrappedCb) (m : JsVal) (s : ExState) :
    (runWrappedCallback cbT w m s).subscribers = s.subscribers := by
  unfold runWrappedCallback
  cases hc : cbT w.orig m <;> rfl

@[simp] theorem runWrappedCallback_bridgeSubs (cbT : Nat → JsVal → Bool)
    (w : WrappedCb) (m : JsVal) (s : ExState) :
    (runWrappedCallback cbT w m s).bridgeSubs = s.bridgeSubs := by
  unfold runWrappedCallback
  cases hc : cbT w.orig m <;> rfl

@[simp] theorem runWrappedCallback_bridgeSends (cbT : Nat → JsVal → Bool)
    (w : WrappedCb) (m : JsVal) (s : ExState) :
    (runWrappedCallback cbT w m s).bridgeSends = s.bridgeSends := by
  unfold runWrappedCallback
  cases hc : cbT w.orig m <;> rfl

@[simp] theorem runWrappedCallback_deliveredTo (cbT : Nat → JsVal → Bool)
    (w : WrappedCb) (m : JsVal) (s : ExState) :
    (runWrappedCallback cbT w m s).deliveredTo = s.deliveredTo ++ [(w.orig, m)] := by
  unfold runWrappedCallback
  cases hc : cbT w.orig m <;> rfl

theorem foldl_runWrapped_messageQueue (cbT : Nat → JsVal → Bool) (w : WrappedCb)
    (L : List JsVal) : ∀ st : ExState,
    (L.foldl (fun st m => runWrappedCallback cbT w m st) st).messageQueue
      = st.messageQueue := by
  induction L with
  | nil => intro st; rfl
  | cons m ms ih =>
    intro st
    simp only [List.foldl_cons]
    rw [ih, runWrappedCallback_messageQueue]

theorem foldl_runWrapped_deliveredTo (cbT : Nat → JsVal → Bool) (w : WrappedCb)
    (L : List JsVal) : ∀ st : ExState,
    (L.foldl (fun st m => runWrappedCallback cbT w m st) st).deliveredTo
      = st.deliveredTo ++ L.map (fun m => (w.orig, m)) := by
  induction L with
  | nil => intro st; simp
  | cons m ms ih =>
    intro st
    simp only [List.foldl_cons, List.map_cons]
    rw [ih, runWrappedCallback_deliveredTo]
    simp

theorem replay_step_eq (cbT : Nat → JsVal → Bool) (w : WrappedCb) :
    (fun (st : ExState) (m : JsVal) =>
      let r := wrappedCallbackOf cbT w m st
      if r.2 then logErrorState "Error replaying queued message" r.1 else r.1)
    = fun st m => runWrappedCallback cbT w m st := by
  funext st m
  simp [wrappedCallbackOf]

theorem replay_messageQueue (cbT : Nat → JsVal → Bool) (w : WrappedCb)
    (s : ExState) :
    (ServiceExampleEventService.replayQueuedMessages (wrappedCallbackOf cbT w) s).messageQueue
      = s.messageQueue := by
  unfold ServiceExampleEventService.replayQueuedMessages
  rw [logEventState_messageQueue, replay_step_eq, foldl_runWrapped_messageQueue]

theorem replay_deliveredTo (cbT : Nat → JsVal → Bool) (w : WrappedCb)
    (s : ExState) :
    (ServiceExampleEventService.replayQueuedMessages (wrappedCallbackOf cbT w) s).deliveredTo
      = s.deliveredTo ++ s.messageQueue.map (fun m => (w.orig, m)) := by
  unfold ServiceExampleEventService.replayQueuedMessages
  rw [logEventState_deliveredTo, replay_step_eq, foldl_runWrapped_deliveredTo]

theorem sendMessage_errCase
    (bridge : String → JsVal → JsVal → Except String Unit)
    (o : StampOracle) (s : ExState) (t : String) (m opts : JsVal) (e : String)
    (h : s.available = true)
    (hb : bridge t (enhanceMessage s.pluginId s.moduleId o opts m) opts
        = Except.error e) :
    ServiceExampleEventService.sendMessage bridge o s t m opts =
      logErrorState ("Failed to send message to " ++ t)
        { s with
          bridgeSends := s.bridgeSends
            ++ [(t, enhanceMessage s.pluginId s.moduleId o opts m, false)],
          errorCount := s.errorCount + 1 } := by
  simp only [ServiceExampleEventService.sendMessage]
  rw [if_neg (by simp [h])]
  rw [hb]

theorem sendMessage_okCase
    (bridge : String → JsVal → JsVal → Except String Unit)
    (o : StampOracle) (s : ExState) (t : String) (m opts : JsVal)
    (h : s.available = true)
    (hb : bridge t (enhanceMessage s.pluginId s.moduleId o opts m) opts
        = Except.ok ()) :
    ServiceExampleEventService.sendMessage bridge o s t m opts =
      (let s2 := logEventState "message.sent" ("Message sent to " ++ t)
        { s with
          bridgeSends := s.bridgeSends
            ++ [(t, enhanceMessage s.pluginId s.moduleId o opts m, true)],
          messagesSent := s.messagesSent + 1,
          totalLatency := s.totalLatency + o.latency }
      if jsTruthy (jsGet opts "persist") then
        ServiceExampleEventService.addToQueue
          (enhanceMessage s.pluginId s.moduleId o opts m) s2
      else s2) := by
  simp only [ServiceExampleEventService.sendMessage]
  rw [if_neg (by simp [h])]
  rw [hb]

theorem sendMessage_bridgeOk_available (o : StampOracle) (s : ExState)
    (t : String) (m opts : JsVal) (h : s.available = true) :
    (ServiceExampleEventService.sendMessage bridgeOk o s t m opts).available = s.available := by
  rw [sendMessage_okCase bridgeOk o s t m opts h rfl]
  by_cases hP : jsTruthy (jsGet opts "persist") <;> simp [hP]

theorem sendMessage_bridgeOk_pluginId (o : StampOracle) (s : ExState)
    (t : String) (m opts : JsVal) (h : s.available = true) :
    (ServiceExampleEventService.sendMessage bridgeOk o s t m opts).pluginId = s.pluginId := by
  rw [sendMessage_okCase bridgeOk o s t m opts h rfl]
  by_cases hP : jsTruthy (jsGet opts "persist") <;> simp [hP]

theorem sendMessage_bridgeOk_moduleId (o : StampOracle) (s : ExState)
    (t : String) (m opts : JsVal) (h : s.available = true) :
    (ServiceExampleEventService.sendMessage bridgeOk o s t m opts).moduleId = s.moduleId := by
  rw [sendMessage_okCase bridgeOk o s t m opts h rfl]
  by_cases hP : jsTruthy (jsGet opts "persist") <;> simp [hP]

theorem sendMessage_bridgeOk_deliveredTo (o : StampOracle) (s : ExState)
    (t : String) (m opts : JsVal) (h : s.available = true) :
    (ServiceExampleEventService.sendMessage bridgeOk o s t m opts).deliveredTo = s.deliveredTo := by
  rw [sendMessage_okCase bridgeOk o s t m opts h rfl]
  by_cases hP : jsTruthy (jsGet opts "persist") <;> simp [hP]

theorem sendMessage_bridgeOk_nextWid (o : StampOracle) (s : ExState)
    (t : String) (m opts : JsVal) (h : s.available = true) :
    (ServiceExampleEventService.sendMessage bridgeOk o s t m opts).nextWid = s.nextWid := by
  rw [sendMessage_okCase bridgeOk o s t m opts h rfl]
  by_cases hP : jsTruthy (jsGet opts "persist") <;> simp [hP]

theorem sendMessage_bridgeOk_subscribers (o : StampOracle) (s : ExState)
    (t : String) (m opts : JsVal) (h : s.available = true) :
    (ServiceExampleEventService.sendMessage bridgeOk o s t m opts).subscribers = s.subscribers := by
  rw [sendMessage_okCase bridgeOk o s t m opts h rfl]
  by_cases hP : jsTruthy (jsGet opts "persist") <;> simp [hP]

theorem sendMessage_bridgeOk_bridgeSubs (o : StampOracle) (s : ExState)
    (t : String) (m opts : JsVal) (h : s.available = true) :
    (ServiceExampleEventService.sendMessage bridgeOk o s t m opts).bridgeSubs = s.bridgeSubs := by
  rw [sendMessage_okCase bridgeOk o s t m opts h rfl]
  by_cases hP : jsTruthy (jsGet opts "persist") <;> simp [hP]

theorem sendMessage_bridgeOk_messageQueue (o : StampOracle) (s : ExState)
    (t : String) (m opts : JsVal) (h : s.available = true) :
    (ServiceExampleEventService.sendMessage bridgeOk o s t m opts).messageQueue =
      (if jsTruthy (jsGet opts "persist") then
        addToQueueList s.messageQueue (enhanceMessage s.pluginId s.moduleId o opts m)
      else s.messageQueue) := by
  rw [sendMessage_okCase bridgeOk o s t m opts h rfl]
  by_cases hP : jsTruthy (jsGet opts "persist") <;> simp [hP]

theorem runSends_proj (sends : List SendCall) :
    ∀ s : ExState, s.available = true →
    (runSends sends s).available = true ∧
    (runSends sends s).pluginId = s.pluginId ∧
    (runSends sends s).moduleId = s.moduleId ∧
    (runSends sends s).deliveredTo = s.deliveredTo ∧
    (runSends sends s).nextWid = s.nextWid ∧
    (runSends sends s).subscribers = s.subscribers ∧
    (runSends sends s).bridgeSubs = s.bridgeSubs ∧
    (runSends sends s).messageQueue =
      ((sends.filter (fun c => jsTruthy (jsGet c.options "persist"))).map
        (fun c => enhanceMessage s.pluginId s.moduleId c.oracle c.options c.message)).foldl
        addToQueueList s.messageQueue := by
  induction sends with
  | nil => intro s h; exact ⟨h, rfl, rfl, rfl, rfl, rfl, rfl, rfl⟩
  | cons c cs ih =>
    intro s h
    have hrw : runSends (c :: cs) s = runSends cs
        (ServiceExampleEventService.sendMessage bridgeOk c.oracle s c.target
          c.message c.options) := rfl
    have h1 := sendMessage_bridgeOk_available c.oracle s c.target c.message c.options h
    have h2 := sendMessage_bridgeOk_pluginId c.oracle s c.target c.message c.options h
    have h3 := sendMessage_bridgeOk_moduleId c.oracle s c.target c.message c.options h
    have h4 := sendMessage_bridgeOk_deliveredTo c.oracle s c.target c.message c.options h
    have h5 := sendMessage_bridgeOk_nextWid c.oracle s c.target c.message c.options h
    have h6 := sendMessage_bridgeOk_subscribers c.oracle s c.target c.message c.options h
    have h7 := sendMessage_bridgeOk_bridgeSubs c.oracle s c.target c.message c.options h
    have h8 := sendMessage_bridgeOk_messageQueue c.oracle s c.target c.message c.options h
    obtain ⟨g1, g2, g3, g4, g5, g6, g7, g8⟩ :=
      ih (ServiceExampleEventService.sendMessage bridgeOk c.oracle s c.target
        c.message c.options) (by rw [h1, h])
    rw [hrw]
    refine ⟨g1, ?_, ?_, ?_, ?_, ?_, ?_, ?_⟩
    · rw [g2, h2]
    · rw [g3, h3]
    · rw [g4, h4]
    · rw [g5, h5]
    · rw [g6, h6]
    · rw [g7, h7]
    · rw [g8, h8, h2, h3]
      by_cases hP : jsTruthy (jsGet c.options "persist")
      · rw [if_pos hP, List.filter_cons_of_pos (by simp [hP]), List.map_cons,
          List.foldl_cons]
      · rw [if_neg hP, List.filter_cons_of_neg (by simp [hP])]

theorem foldl_runWrapped_bridgeSubs (cbT : Nat → JsVal → Bool) (w : WrappedCb)
    (L : List JsVal) : ∀ st : ExState,
    (L.foldl (fun st m => runWrappedCallback cbT w m st) st).bridgeSubs
      = st.bridgeSubs := by
  induction L with
  | nil => intro st; rfl
  | cons m ms ih =>
    intro st
    simp only [List.foldl_cons]
    rw [ih, runWrappedCallback_bridgeSubs]

theorem replay_bridgeSubs (cbT : Nat → JsVal → Bool) (w : WrappedCb)
    (s : ExState) :
    (ServiceExampleEventService.replayQueuedMessages (wrappedCallbackOf cbT w) s).bridgeSubs
      = s.bridgeSubs := by
  unfold ServiceExampleEventService.replayQueuedMessages
  rw [logEventState_bridgeSubs, replay_step_eq, foldl_runWrapped_bridgeSubs]

theorem subscribe_eq (cbT : Nat → JsVal → Bool) (s : ExState) (cb : Nat)
    (opts : JsVal) (h : s.available = true) :
    ServiceExampleEventService.subscribeToMessages cbT s cb opts =
      (let w : WrappedCb := ⟨s.nextWid, cb⟩
      let s2 := logEventState "subscription.created"
          ("Subscribed to messages for " ++ s.moduleId)
        { s with
          nextWid := s.nextWid + 1,
          subscribers := subscribersAdd s.subscribers s.moduleId w,
          bridgeSubs := s.bridgeSubs ++ [(s.moduleId, w)] }
      if jsTruthy (jsGet opts "persist") && !s2.messageQueue.isEmpty then
        ServiceExampleEventService.replayQueuedMessages
          (wrappedCallbackOf cbT w) s2
      else s2) := by
  simp only [ServiceExampleEventService.subscribeToMessages]
  rw [if_neg (by simp [h])]

theorem subscribe_deliveredTo (cbT : Nat → JsVal → Bool) (s : ExState)
    (cb : Nat) (opts : JsVal) (h : s.available = true)
    (hp : jsTruthy (jsGet opts "persist") = true) :
    (ServiceExampleEventService.subscribeToMessages cbT s cb opts).deliveredTo
      = s.deliveredTo ++ s.messageQueue.map (fun m => (cb, m)) := by
  rw [subscribe_eq cbT s cb opts h]
  by_cases hq : s.messageQueue.isEmpty
  · rw [if_neg (by simp [hq])]
    have : s.messageQueue = [] := List.isEmpty_iff.mp hq
    simp [this]
  · rw [if_pos (by simp [hp, hq])]
    rw [replay_deliveredTo]
    simp

theorem subscribe_bridgeSubs (cbT : Nat → JsVal → Bool) (s : ExState)
    (cb : Nat) (opts : JsVal) (h : s.available = true) :
    (ServiceExampleEventService.subscribeToMessages cbT s cb opts).bridgeSubs
      = s.bridgeSubs ++ [(s.moduleId, ⟨s.nextWid, cb⟩)] := by
  rw [subscribe_eq cbT s cb opts h]
  by_cases hq : jsTruthy (jsGet opts "persist") && !s.messageQueue.isEmpty
  · rw [if_pos (by simpa using hq)]
    rw [replay_bridgeSubs]
    simp
  · rw [if_neg (by simpa using hq)]
    simp

theorem foldl_runWrapped_available (cbT : Nat → JsVal → Bool) (w : WrappedCb)
    (L : List JsVal) : ∀ st : ExState,
    (L.foldl (fun st m => runWrappedCallback cbT w m st) st).available = st.available := by
  induction L with
  | nil => intro st; rfl
  | cons m ms ih =>
    intro st
    simp only [List.foldl_cons]
    rw [ih, runWrappedCallback_available]

theorem replay_available (cbT : Nat → JsVal → Bool) (w : WrappedCb) (s : ExState) :
    (ServiceExampleEventService.replayQueuedMessages (wrappedCallbackOf cbT w) s).available
      = s.available := by
  unfold ServiceExampleEventService.replayQueuedMessages
  rw [logEventState_available, replay_step_eq, foldl_runWrapped_available]

theorem foldl_runWrapped_moduleId (cbT : Nat → JsVal → Bool) (w : WrappedCb)
    (L : List JsVal) : ∀ st : ExState,
    (L.foldl (fun st m => runWrappedCallback cbT w m st) st).moduleId = st.moduleId := by
  induction L with
  | nil => intro st; rfl
  | cons m ms ih =>
    intro st
    simp only [List.foldl_cons]
    rw [ih, runWrappedCallback_moduleId]

theorem replay_moduleId (cbT : Nat → JsVal → Bool) (w : WrappedCb) (s : ExState) :
    (ServiceExampleEventService.replayQueuedMessages (wrappedCallbackOf cbT w) s).moduleId
      = s.moduleId := by
  unfold ServiceExampleEventService.replayQueuedMessages
  rw [logEventState_moduleId, replay_step_eq, foldl_runWrapped_moduleId]

theorem foldl_runWrapped_pluginId (cbT : Nat → JsVal → Bool) (w : WrappedCb)
    (L : List JsVal) : ∀ st : ExState,
    (L.foldl (fun st m => runWrappedCallback cbT w m st) st).pluginId = st.pluginId := by
  induction L with
  | nil => intro st; rfl
  | cons m ms ih =>
    intro st
    simp only [List.foldl_cons]
    rw [ih, runWrappedCallback_pluginId]

theorem replay_pluginId (cbT : Nat → JsVal → Bool) (w : WrappedCb) (s : ExState) :
    (ServiceExampleEventService.replayQueuedMessages (wrappedCallbackOf cbT w) s).pluginId
      = s.pluginId := by
  unfold ServiceExampleEventService.replayQueuedMessages
  rw [logEventState_pluginId, replay_step_eq, foldl_runWrapped_pluginId]

theorem foldl_runWrapped_nextWid (cbT : Nat → JsVal → Bool) (w : WrappedCb)
    (L : List JsVal) : ∀ st : ExState,
    (L.foldl (fun st m => runWrappedCallback cbT w m st) st).nextWid = st.nextWid := by
  induction L with
  | nil => intro st; rfl
  | cons m ms ih =>
    intro st
    simp only [List.foldl_cons]
    rw [ih, runWrappedCallback_nextWid]

theorem replay_nextWid (cbT : Nat → JsVal → Bool) (w : WrappedCb) (s : ExState) :
    (ServiceExampleEventService.replayQueuedMessages (wrappedCallbackOf cbT w) s).nextWid
      = s.nextWid := by
  unfold ServiceExampleEventService.replayQueuedMessages
  rw [logEventState_nextWid, replay_step_eq, foldl_runWrapped_nextWid]

theorem foldl_runWrapped_subscribers (cbT : Nat → JsVal → Bool) (w : WrappedCb)
    (L : List JsVal) : ∀ st : ExState,
    (L.foldl (fun st m => runWrappedCallback cbT w m st) st).subscribers = st.subscribers := by
  induction L with
  | nil => intro st; rfl
  | cons m ms ih =>
    intro st
    simp only [List.foldl_cons]
    rw [ih, runWrappedCallback_subscribers]

theorem replay_subscribers (cbT : Nat → JsVal → Bool) (w : WrappedCb) (s : ExState) :
    (ServiceExampleEventService.replayQueuedMessages (wrappedCallbackOf cbT w) s).subscribers
      = s.subscribers := by
  unfold ServiceExampleEventService.replayQueuedMessages
  rw [logEventState_subscribers, replay_step_eq, foldl_runWrapped_subscribers]

theorem subscribe_available (cbT : Nat → JsVal → Bool) (s : ExState)
    (cb : Nat) (opts : JsVal) (h : s.available = true) :
    (ServiceExampleEventService.subscribeToMessages cbT s cb opts).available
      = true := by
  rw [subscribe_eq cbT s cb opts h]
  by_cases hq : jsTruthy (jsGet opts "persist") && !s.messageQueue.isEmpty
  · rw [if_pos (by simpa using hq)]
    rw [replay_available]
    simp [h]
  · rw [if_neg (by simpa using hq)]
    simp [h]

theorem subscribe_moduleId (cbT : Nat → JsVal → Bool) (s : ExState)
    (cb : Nat) (opts : JsVal) (h : s.available = true) :
    (ServiceExampleEventService.subscribeToMessages cbT s cb opts).moduleId
      = s.moduleId := by
  rw [subscribe_eq cbT s cb opts h]
  by_cases hq : jsTruthy (jsGet opts "persist") && !s.messageQueue.isEmpty
  · rw [if_pos (by simpa using hq)]
    rw [replay_moduleId]
    simp [h]
  · rw [if_neg (by simpa using hq)]
    simp [h]

theorem subscribe_pluginId (cbT : Nat → JsVal → Bool) (s : ExState)
    (cb : Nat) (opts : JsVal) (h : s.available = true) :
    (ServiceExampleEventService.subscribeToMessages cbT s cb opts).pluginId
      = s.pluginId := by
  rw [subscribe_eq cbT s cb opts h]
  by_cases hq : jsTruthy (jsGet opts "persist") && !s.messageQueue.isEmpty
  · rw [if_pos (by simpa using hq)]
    rw [replay_pluginId]
    simp [h]
  · rw [if_neg (by simpa using hq)]
    simp [h]

theorem subscribe_nextWid (cbT : Nat → JsVal → Bool) (s : ExState)
    (cb : Nat) (opts : JsVal) (h : s.available = true) :
    (ServiceExampleEventService.subscribeToMessages cbT s cb opts).nextWid
      = s.nextWid + 1 := by
  rw [subscribe_eq cbT s cb opts h]
  by_cases hq : jsTruthy (jsGet opts "persist") && !s.messageQueue.isEmpty
  · rw [if_pos (by simpa using hq)]
    rw [replay_nextWid]
    simp [h]
  · rw [if_neg (by simpa using hq)]
    simp [h]

theorem subscribe_subscribers (cbT : Nat → JsVal → Bool) (s : ExState)
    (cb : Nat) (opts : JsVal) (h : s.available = true) :
    (ServiceExampleEventService.subscribeToMessages cbT s cb opts).subscribers
      = subscribersAdd s.subscribers s.moduleId ⟨s.nextWid, cb⟩ := by
  rw [subscribe_eq cbT s cb opts h]
  by_cases hq : jsTruthy (jsGet opts "persist") && !s.messageQueue.isEmpty
  · rw [if_pos (by simpa using hq)]
    rw [replay_subscribers]
    simp [h]
  · rw [if_neg (by simpa using hq)]
    simp [h]

theorem foldl_deliver_deliveredTo (cbT : Nat → JsVal → Bool) (m : JsVal)
    (R : List (String × WrappedCb)) : ∀ st : ExState,
    (R.foldl (fun st p => runWrappedCallback cbT p.2 m st) st).deliveredTo
      = st.deliveredTo ++ R.map (fun p => (p.2.orig, m)) := by
  induction R with
  | nil => intro st; simp
  | cons p ps ih =>
    intro st
    simp only [List.foldl_cons, List.map_cons]
    rw [ih, runWrappedCallback_deliveredTo]
    simp

theorem deliveriesTo_bridgeDeliver (cbT : Nat → JsVal → Bool) (cb : Nat)
    (mid : String) (m : JsVal) (s : ExState) :
    deliveriesTo cb (bridgeDeliver cbT mid m s)
      = deliveriesTo cb s + countRegs cb mid s.bridgeSubs := by
  unfold deliveriesTo bridgeDeliver countRegs
  rw [foldl_deliver_deliveredTo]
  rw [List.filter_append, List.length_append]
  congr 1
  rw [List.filter_map, List.length_map, List.filter_filter]
  have : (fun (a : String × WrappedCb) =>
      ((fun (p : Nat × JsVal) => p.1 == cb) ∘ fun p => (p.2.orig, m)) a && a.1 == mid)
      = fun p => p.1 == mid && p.2.orig == cb := by
    funext p
    simp [Function.comp, Bool.and_comm]
  rw [this]

theorem foldl_addToQueue_state (msgs : List JsVal) : ∀ st : ExState,
    (msgs.foldl (fun s m => ServiceExampleEventService.addToQueue m s) st).messageQueue
      = msgs.foldl addToQueueList st.messageQueue := by
  induction msgs with
  | nil => intro st; rfl
  | cons m ms ih =>
    intro st
    simp only [List.foldl_cons]
    rw [ih, addToQueue_messageQueue]

theorem pSendMessage_guard_eq
    (bridge : String → JsVal → JsVal → Except String Unit)
    (sentAt : String) (sP : PState) (t : String) (m opts : JsVal)
    (hP : sP.connected = true) (ht : ¬ t = "")
    (hm : EventValidator.validateMessage m = true)
    (ho : EventValidator.validateOptions opts = true) :
    PluginEventService.sendMessage bridge sentAt sP t m opts =
      (match bridge t (messageWithSource sP.pluginId sP.moduleId sentAt
          (sP.messageCount + 1) opts m) opts with
      | Except.ok _ =>
        (Except.ok (), { sP with
          messageCount := sP.messageCount + 1,
          bridgeSends := sP.bridgeSends
            ++ [(t, messageWithSource sP.pluginId sP.moduleId sentAt
                  (sP.messageCount + 1) opts m, true)] })
      | Except.error e =>
        (Except.error ⟨"Failed to send message: " ++ e, "SEND_FAILED"⟩,
          { sP with
            messageCount := sP.messageCount + 1,
            bridgeSends := sP.bridgeSends
              ++ [(t, messageWithSource sP.pluginId sP.moduleId sentAt
                    (sP.messageCount + 1) opts m, false)] })) := by
  simp only [PluginEventService.sendMessage]
  rw [if_neg (by simp [hP]), if_neg ht, if_neg (by simp [hm]),
    if_neg (by simp [ho])]

theorem sendMessage_ok_proj
    (bridge : String → JsVal → JsVal → Except String Unit)
    (o : StampOracle) (s : ExState) (t : String) (m opts : JsVal)
    (h : s.available = true)
    (hb : bridge t (enhanceMessage s.pluginId s.moduleId o opts m) opts
        = Except.ok ()) :
    (ServiceExampleEventService.sendMessage bridge o s t m opts).bridgeSends
      = s.bridgeSends ++ [(t, enhanceMessage s.pluginId s.moduleId o opts m, true)] ∧
    (ServiceExampleEventService.sendMessage bridge o s t m opts).errorCount
      = s.errorCount ∧
    (ServiceExampleEventService.sendMessage bridge o s t m opts).messagesSent
      = s.messagesSent + 1 ∧
    (ServiceExampleEventService.sendMessage bridge o s t m opts).available = true ∧
    (ServiceExampleEventService.sendMessage bridge o s t m opts).pluginId
      = s.pluginId ∧
    (ServiceExampleEventService.sendMessage bridge o s t m opts).moduleId
      = s.moduleId := by
  rw [sendMessage_okCase bridge o s t m opts h hb]
  by_cases hPq : jsTruthy (jsGet opts "persist") <;> simp [hPq, h]

theorem sendMessage_err_proj
    (bridge : String → JsVal → JsVal → Except String Unit)
    (o : StampOracle) (s : ExState) (t : String) (m opts : JsVal) (e : String)
    (h : s.available = true)
    (hb : bridge t (enhanceMessage s.pluginId s.moduleId o opts m) opts
        = Except.error e) :
    (ServiceExampleEventService.sendMessage bridge o s t m opts).bridgeSends
      = s.bridgeSends ++ [(t, enhanceMessage s.pluginId s.moduleId o opts m, false)] ∧
    (ServiceExampleEventService.sendMessage bridge o s t m opts).errorCount
      = s.errorCount + 2 ∧
    (ServiceExampleEventService.sendMessage bridge o s t m opts).messagesSent
      = s.messagesSent ∧
    (ServiceExampleEventService.sendMessage bridge o s t m opts).available = true ∧
    (ServiceExampleEventService.sendMessage bridge o s t m opts).pluginId
      = s.pluginId ∧
    (ServiceExampleEventService.sendMessage bridge o s t m opts).moduleId
      = s.moduleId ∧
    (ServiceExampleEventService.sendMessage bridge o s t m opts).messageQueue
      = s.messageQueue := by
  rw [sendMessage_errCase bridge o s t m opts e h hb]
  simp [h]

theorem ArrayHeap.read_alloc_old {α : Type} (h : ArrayHeap α) (xs : List α)
    (r : Nat) (hr : r < h.cells.length) :
    ((h.alloc xs).1).read r = h.read r := by
  unfold ArrayHeap.alloc ArrayHeap.read
  rw [List.getElem?_append_left hr]

theorem ArrayHeap.read_alloc_new {α : Type} (h : ArrayHeap α) (xs : List α) :
    ((h.alloc xs).1).read (h.alloc xs).2 = xs := by
  unfold ArrayHeap.alloc ArrayHeap.read
  rw [List.getElem?_concat_length]
  rfl

theorem ArrayHeap.read_write_ne {α : Type} (h : ArrayHeap α) (xs : List α)
    (r r' : Nat) (hne : ¬ r' = r) :
    (h.write r' xs).read r = h.read r := by
  unfold ArrayHeap.write ArrayHeap.read
  rw [List.getElem?_set_ne hne]

theorem validatorOptions_char (v : JsVal) :
    EventValidator.validateOptions v = validatorOptionsOk v := by
  unfold EventValidator.validateOptions validatorOptionsOk
  cases hr : typeofBoolean (jsGet v "remote") <;>
    cases hpu : jsIsUndefined (jsGet v "persist") <;>
      cases hpb : typeofBoolean (jsGet v "persist") <;>
        simp [hr, hpu, hpb]

theorem utilsOptions_char (v : JsVal) :
    (validateEventOptions v).1 = utilsOptionsOk v := by
  unfold validateEventOptions utilsOptionsOk
  cases v with
  | str s => simp [jsTruthy, jsIsObjectLike]
  | num n =>
    by_cases hn : n = 0 <;> simp [jsTruthy, jsIsObjectLike, hn]
  | bool b => cases b <;> simp [jsTruthy, jsIsObjectLike]
  | undef => simp [jsTruthy, jsIsObjectLike]
  | arr xs =>
    simp only [jsTruthy, jsIsObjectLike, jsGet]
    simp [jsIsUndefined]
  | obj fs =>
    simp only [jsTruthy, jsIsObjectLike, jsGet]
    cases hru : jsIsUndefined (getField fs "remote") <;>
      cases hrb : typeofBoolean (getField fs "remote") <;>
        cases hpu : jsIsUndefined (getField fs "persist") <;>
          cases hpb : typeofBoolean (getField fs "persist") <;>
            rcases Bool.eq_false_or_eq_true (jsIsUndefined (getField fs "priority")) with hqu | hqu <;>
              rcases Bool.eq_false_or_eq_true (priorityInEnum (getField fs "priority")) with hqe | hqe <;>
                simp [hru, hrb, hpu, hpb, hqu, hqe]

/-- Options value with `remote: false` only (the source's default). -/
def optsNone : JsVal := JsVal.obj [("remote", JsVal.bool false)]

/-- Options value with `remote: false, persist: true`. -/
def optsPersist : JsVal :=
  JsVal.obj [("remote", JsVal.bool false), ("persist", JsVal.bool true)]

/-- A minimal valid message content. -/
def msgPing : JsVal := JsVal.obj [("type", JsVal.str "ping")]

/-- A fixed stamp oracle for concrete runs. -/
def oracle0 : StampOracle := ⟨"2025-01-01T00:00:00.000Z", "msg-m5ks0-abc12", 0⟩

/-- A caller callback that never throws. -/
def cbNoThrow : Nat → JsVal → Bool := fun _ _ => false

/-- A connected `ServiceExampleEventService` instance for module `m1`. -/
def exReady : ExState :=
  ServiceExampleEventService.initializeService
    (ServiceExampleEventService.mk "ServiceExample_Events" "m1")

/-- A connected `PluginEventService` instance for module `m1`. -/
def pReady : PState :=
  { PluginEventService.mk "ServiceExample_Events" "m1" with connected := true }

/-- C2: enqueuing `maxQueueSize + k` messages through `addToQueue` leaves the
replay queue with exactly `maxQueueSize` entries, and those entries are the
most recent `maxQueueSize` messages in enqueue order (`msgs.drop k`).
`addToQueue` is a total function — enqueue cannot fail; overflow is handled
by evicting the oldest entries. -/
theorem queue_eviction_bound (pid mid : String) (msgs : List JsVal) (k : Nat)
    (h : msgs.length = maxQueueSize + k) :
    ((msgs.foldl (fun s m => ServiceExampleEventService.addToQueue m s)
        (ServiceExampleEventService.mk pid mid)).messageQueue).length
      = maxQueueSize ∧
    (msgs.foldl (fun s m => ServiceExampleEventService.addToQueue m s)
        (ServiceExampleEventService.mk pid mid)).messageQueue
      = msgs.drop k := by
  rw [foldl_addToQueue_state]
  have hq : (ServiceExampleEventService.mk pid mid).messageQueue = [] := rfl
  rw [hq, foldl_addToQueueList msgs [] (by simp)]
  simp only [List.nil_append]
  constructor
  · rw [length_takeLast]
    omega
  · unfold takeLast
    rw [h]
    have hk : maxQueueSize + k - maxQueueSize = k := by omega
    rw [hk]

/-- Witness for C2 at a concrete over-capacity input. -/
theorem queue_eviction_bound_witness :
    (List.replicate (maxQueueSize + 1) JsVal.undef).length = maxQueueSize + 1 ∧
    (((List.replicate (maxQueueSize + 1) JsVal.undef).foldl
        (fun s m => ServiceExampleEventService.addToQueue m s)
        (ServiceExampleEventService.mk "p" "m1")).messageQueue).length
      = maxQueueSize ∧
    ((List.replicate (maxQueueSize + 1) JsVal.undef).foldl
        (fun s m => ServiceExampleEventService.addToQueue m s)
        (ServiceExampleEventService.mk "p" "m1")).messageQueue
      = (List.replicate (maxQueueSize + 1) JsVal.undef).drop 1 :=
  ⟨by rw [List.length_replicate],
    queue_eviction_bound "p" "m1" _ 1 (by rw [List.length_replicate])⟩

/-- C8: replaying the queued backlog through the wrapped callback —
whatever envelopes the caller's callback throws on, as decided by the
throw oracle `cbT` — leaves the replay queue exactly as it was, and the
caller's callback is still invoked once per queued envelope, in original
enqueue order (the per-envelope catches isolate the failures). -/
theorem replay_isolated_and_pure (cbT : Nat → JsVal → Bool) (w : WrappedCb)
    (s : ExState) :
    (ServiceExampleEventService.replayQueuedMessages
        (wrappedCallbackOf cbT w) s).messageQueue = s.messageQueue ∧
    (ServiceExampleEventService.replayQueuedMessages
        (wrappedCallbackOf cbT w) s).deliveredTo
      = s.deliveredTo ++ s.messageQueue.map (fun m => (w.orig, m)) :=
  ⟨replay_messageQueue cbT w s, replay_deliveredTo cbT w s⟩

/-- C9: counterexample — `EventValidator.validateOptions` accepts an options
object whose `priority` is present and outside the enum (it never inspects
`priority`), while the claim's predicate rejects it. -/
theorem validateOptions_priority_counterexample :
    EventValidator.validateOptions
        (JsVal.obj [("remote", JsVal.bool true), ("priority", JsVal.str "urgent")])
      = true ∧
    claimedValidOptions
        (JsVal.obj [("remote", JsVal.bool true), ("priority", JsVal.str "urgent")])
      = false :=
  ⟨rfl, rfl⟩

/-- C9: amended — `EventValidator.validateOptions` returns false exactly
when `remote` is not a boolean or `persist` is present but not a boolean
(it never inspects `priority`); the separate `validateEventOptions` utility
is the one that also rejects an out-of-enum `priority`, and it conversely
accepts an absent `remote`.  Both are total functions: they never throw. -/
theorem validateOptions_characterization (v : JsVal) :
    EventValidator.validateOptions v = validatorOptionsOk v ∧
    (validateEventOptions v).1 = utilsOptionsOk v :=
  ⟨validatorOptions_char v, utilsOptions_char v⟩

/-- C4: counterexample — the envelope handed to the Bridge keeps a
caller-supplied `source`, `id` and `timestamp` verbatim (in both wrapper
variants): the stamping only assigns the separate `_source` and
`_metadata` fields and never overwrites those plain fields. -/
theorem stamping_keeps_caller_fields_counterexample :
    jsGet (enhanceMessage "ServiceExample_Events" "m1" oracle0 optsNone
        (JsVal.obj [("type", JsVal.str "x"), ("source", JsVal.str "evil"),
          ("id", JsVal.str "fake"), ("timestamp", JsVal.str "1970-01-01")]))
      "source" = JsVal.str "evil" ∧
    jsGet (enhanceMessage "ServiceExample_Events" "m1" oracle0 optsNone
        (JsVal.obj [("type", JsVal.str "x"), ("source", JsVal.str "evil"),
          ("id", JsVal.str "fake"), ("timestamp", JsVal.str "1970-01-01")]))
      "id" = JsVal.str "fake" ∧
    jsGet (enhanceMessage "ServiceExample_Events" "m1" oracle0 optsNone
        (JsVal.obj [("type", JsVal.str "x"), ("source", JsVal.str "evil"),
          ("id", JsVal.str "fake"), ("timestamp", JsVal.str "1970-01-01")]))
      "timestamp" = JsVal.str "1970-01-01" ∧
    jsGet (messageWithSource "ServiceExample_Events" "m1"
        "2025-01-01T00:00:00.000Z" 1 optsNone
        (JsVal.obj [("type", JsVal.str "x"), ("source", JsVal.str "evil"),
          ("id", JsVal.str "fake"), ("timestamp", JsVal.str "1970-01-01")]))
      "source" = JsVal.str "evil" :=
  ⟨rfl, rfl, rfl, rfl⟩

/-- C4: amended — the stamping is authoritative only for the underscore
fields: `_source` and `_metadata` of the outgoing envelope always come from
the core's own identity, clock and id generator, even when the caller
supplies such fields in the content (the assignments overwrite them); the
caller's plain `source`, `id` and `timestamp` fields, however, pass through
to the envelope unchanged. -/
theorem stamping_underscore_fields_authoritative
    (fs : List (String × JsVal)) (pid mid sentAt : String) (count : Nat)
    (o : StampOracle) (opts : JsVal) :
    jsGet (enhanceMessage pid mid o opts (JsVal.obj fs)) "_source"
      = JsVal.obj [("pluginId", JsVal.str pid), ("moduleId", JsVal.str mid)] ∧
    jsGet (enhanceMessage pid mid o opts (JsVal.obj fs)) "_metadata"
      = JsVal.obj [("sentAt", JsVal.str o.sentAt), ("options", opts),
          ("messageId", JsVal.str o.msgId)] ∧
    jsGet (enhanceMessage pid mid o opts (JsVal.obj fs)) "source"
      = getField fs "source" ∧
    jsGet (enhanceMessage pid mid o opts (JsVal.obj fs)) "id"
      = getField fs "id" ∧
    jsGet (enhanceMessage pid mid o opts (JsVal.obj fs)) "timestamp"
      = getField fs "timestamp" ∧
    jsGet (messageWithSource pid mid sentAt count opts (JsVal.obj fs)) "_source"
      = JsVal.obj [("pluginId", JsVal.str pid), ("moduleId", JsVal.str mid)] ∧
    jsGet (messageWithSource pid mid sentAt count opts (JsVal.obj fs)) "source"
      = getField fs "source" ∧
    jsGet (messageWithSource pid mid sentAt count opts (JsVal.obj fs)) "id"
      = getField fs "id" ∧
    jsGet (messageWithSource pid mid sentAt count opts (JsVal.obj fs)) "timestamp"
      = getField fs "timestamp" := by
  unfold enhanceMessage messageWithSource jsGet
  dsimp only
  refine ⟨?_, ?_, ?_, ?_, ?_, ?_, ?_, ?_, ?_⟩
  · rw [getField_setField_ne _ _ _ _ (by decide), getField_setField_self]
  · rw [getField_setField_self]
  · rw [getField_setField_ne _ _ _ _ (by decide),
      getField_setField_ne _ _ _ _ (by decide)]
  · rw [getField_setField_ne _ _ _ _ (by decide),
      getField_setField_ne _ _ _ _ (by decide)]
  · rw [getField_setField_ne _ _ _ _ (by decide),
      getField_setField_ne _ _ _ _ (by decide)]
  · rw [getField_setField_ne _ _ _ _ (by decide), getField_setField_self]
  · rw [getField_setField_ne _ _ _ _ (by decide),
      getField_setField_ne _ _ _ _ (by decide)]
  · rw [getField_setField_ne _ _ _ _ (by decide),
      getField_setField_ne _ _ _ _ (by decide)]
  · rw [getField_setField_ne _ _ _ _ (by decide),
      getField_setField_ne _ _ _ _ (by decide)]

/-- C1: counterexample — take channel C = "m1", the instance's own channel
(`subscribeToMessages` always subscribes on the instance's `moduleId`).
Zero persisted sends go to "m1" and one persisted send goes to "m2", so by
the claim the new "m1" subscriber must receive no replayed messages; but
the subscribe call replays the "m2" envelope to it: the queue is one global
buffer and replay does not filter by channel. -/
theorem replay_crosses_channels_counterexample :
    (ServiceExampleEventService.sendMessage bridgeOk oracle0 exReady "m2"
        msgPing optsPersist).bridgeSends
      = [("m2", enhanceMessage "ServiceExample_Events" "m1" oracle0
          optsPersist msgPing, true)] ∧
    (ServiceExampleEventService.subscribeToMessages cbNoThrow
        (ServiceExampleEventService.sendMessage bridgeOk oracle0 exReady "m2"
          msgPing optsPersist) 9 optsPersist).deliveredTo
      = [(9, enhanceMessage "ServiceExample_Events" "m1" oracle0
          optsPersist msgPing)] :=
  ⟨rfl, rfl⟩

/-- C1: amended — after any sequence of persisted sends (to any target
channels, each succeeding at the Bridge), a persistent subscribe replays to
the new callback exactly the last `min(N, maxQueueSize)` stamped envelopes
of the whole global queue, in original send order, synchronously within the
subscribe call — regardless of which channel each message was sent to
(replay is not scoped to the subscribing channel). -/
theorem replay_delivers_global_backlog (pid mid : String)
    (sends : List SendCall) (cb : Nat) (cbT : Nat → JsVal → Bool)
    (subOpts : JsVal)
    (hall : sends.all (fun c => jsTruthy (jsGet c.options "persist")) = true)
    (hp : jsTruthy (jsGet subOpts "persist") = true) :
    (ServiceExampleEventService.subscribeToMessages cbT
        (runSends sends (ServiceExampleEventService.initializeService
          (ServiceExampleEventService.mk pid mid))) cb subOpts).deliveredTo
      = (takeLast maxQueueSize (sends.map (fun c =>
          enhanceMessage pid mid c.oracle c.options c.message))).map
          (fun m => (cb, m)) := by
  have h0 : (ServiceExampleEventService.initializeService
      (ServiceExampleEventService.mk pid mid)).available = true := rfl
  obtain ⟨g1, g2, g3, g4, _, _, _, g8⟩ := runSends_proj sends _ h0
  rw [subscribe_deliveredTo cbT _ cb subOpts g1 hp, g4, g8]
  have hfilter : sends.filter (fun c => jsTruthy (jsGet c.options "persist"))
      = sends := by
    rw [List.filter_eq_self]
    intro a ha
    exact List.all_eq_true.mp hall a ha
  rw [hfilter]
  have hpid : (ServiceExampleEventService.initializeService
      (ServiceExampleEventService.mk pid mid)).pluginId = pid := rfl
  have hmid : (ServiceExampleEventService.initializeService
      (ServiceExampleEventService.mk pid mid)).moduleId = mid := rfl
  have hq0 : (ServiceExampleEventService.initializeService
      (ServiceExampleEventService.mk pid mid)).messageQueue = [] := rfl
  have hd0 : (ServiceExampleEventService.initializeService
      (ServiceExampleEventService.mk pid mid)).deliveredTo = [] := rfl
  rw [hpid, hmid, hq0, hd0]
  rw [foldl_addToQueueList _ [] (by simp)]
  simp

/-- Witness for C1's amended theorem: two persisted sends to channels "m2"
and "m3", then a persistent subscribe on the instance's own channel. -/
theorem replay_delivers_global_backlog_witness :
    (([⟨"m2", msgPing, optsPersist, oracle0⟩,
       ⟨"m3", msgPing, optsPersist, oracle0⟩] : List SendCall).all
        (fun c => jsTruthy (jsGet c.options "persist")) = true) ∧
    (jsTruthy (jsGet optsPersist "persist") = true) ∧
    (ServiceExampleEventService.subscribeToMessages cbNoThrow
        (runSends [⟨"m2", msgPing, optsPersist, oracle0⟩,
          ⟨"m3", msgPing, optsPersist, oracle0⟩]
          (ServiceExampleEventService.initializeService
            (ServiceExampleEventService.mk "ServiceExample_Events" "m1")))
        9 optsPersist).deliveredTo
      = (takeLast maxQueueSize
          (([⟨"m2", msgPing, optsPersist, oracle0⟩,
             ⟨"m3", msgPing, optsPersist, oracle0⟩] : List SendCall).map
            (fun c => enhanceMessage "ServiceExample_Events" "m1" c.oracle
              c.options c.message))).map (fun m => (9, m)) :=
  ⟨rfl, rfl, replay_delivers_global_backlog "ServiceExample_Events" "m1"
    [⟨"m2", msgPing, optsPersist, oracle0⟩,
     ⟨"m3", msgPing, optsPersist, oracle0⟩] 9 cbNoThrow optsPersist rfl rfl⟩

/-- The state after subscribing the same callback reference `7` twice on a
fresh connected instance. -/
def doubleSubscribed : ExState :=
  ServiceExampleEventService.subscribeToMessages cbNoThrow
    (ServiceExampleEventService.subscribeToMessages cbNoThrow exReady 7
      optsNone) 7 optsNone

/-- C5: counterexample — subscribing the identical callback reference twice
on the same instance leaves two distinct wrapped callbacks in the channel's
subscriber set and two Bridge registrations, and one message delivered by
the Bridge to the channel then invokes the callback twice, not once: each
`subscribeToMessages` call wraps the callback in a fresh closure, so the
set add is never a no-op. -/
theorem duplicate_subscribe_counterexample :
    (subsFor "m1" doubleSubscribed.subscribers).length = 2 ∧
    deliveriesTo 7 (bridgeDeliver cbNoThrow "m1" msgPing doubleSubscribed) = 2 :=
  ⟨rfl, rfl⟩

/-- C5: amended — a second `subscribeToMessages` with the same callback is
not a no-op: every call registers a fresh wrapper with the Bridge for the
instance's channel (two more registrations wrapping `cb` after two calls),
and a message the Bridge then delivers to that channel invokes the
caller's callback once per registration. -/
theorem subscribe_not_idempotent (cbT : Nat → JsVal → Bool) (s : ExState)
    (cb : Nat) (opts m : JsVal) (h : s.available = true) :
    countRegs cb s.moduleId
        (ServiceExampleEventService.subscribeToMessages cbT
          (ServiceExampleEventService.subscribeToMessages cbT s cb opts) cb
          opts).bridgeSubs
      = countRegs cb s.moduleId s.bridgeSubs + 2 ∧
    deliveriesTo cb (bridgeDeliver cbT s.moduleId m
        (ServiceExampleEventService.subscribeToMessages cbT
          (ServiceExampleEventService.subscribeToMessages cbT s cb opts) cb
          opts))
      = deliveriesTo cb (ServiceExampleEventService.subscribeToMessages cbT
          (ServiceExampleEventService.subscribeToMessages cbT s cb opts) cb
          opts)
        + (countRegs cb s.moduleId s.bridgeSubs + 2) := by
  have h1 := subscribe_available cbT s cb opts h
  have e1 := subscribe_bridgeSubs cbT s cb opts h
  have em := subscribe_moduleId cbT s cb opts h
  have e2 := subscribe_bridgeSubs cbT
    (ServiceExampleEventService.subscribeToMessages cbT s cb opts) cb opts h1
  have hcount : countRegs cb s.moduleId
      (ServiceExampleEventService.subscribeToMessages cbT
        (ServiceExampleEventService.subscribeToMessages cbT s cb opts) cb
        opts).bridgeSubs
      = countRegs cb s.moduleId s.bridgeSubs + 2 := by
    rw [e2, em, e1]
    unfold countRegs
    rw [List.filter_append, List.filter_append, List.length_append,
      List.length_append]
    simp
  refine ⟨hcount, ?_⟩
  rw [deliveriesTo_bridgeDeliver, hcount]

/-- Witness for C5's amended theorem on a fresh connected instance. -/
theorem subscribe_not_idempotent_witness :
    (exReady.available = true) ∧
    (countRegs 7 exReady.moduleId
        (ServiceExampleEventService.subscribeToMessages cbNoThrow
          (ServiceExampleEventService.subscribeToMessages cbNoThrow exReady 7
            optsNone) 7 optsNone).bridgeSubs
      = countRegs 7 exReady.moduleId exReady.bridgeSubs + 2 ∧
    deliveriesTo 7 (bridgeDeliver cbNoThrow exReady.moduleId msgPing
        (ServiceExampleEventService.subscribeToMessages cbNoThrow
          (ServiceExampleEventService.subscribeToMessages cbNoThrow exReady 7
            optsNone) 7 optsNone))
      = deliveriesTo 7 (ServiceExampleEventService.subscribeToMessages cbNoThrow
          (ServiceExampleEventService.subscribeToMessages cbNoThrow exReady 7
            optsNone) 7 optsNone)
        + (countRegs 7 exReady.moduleId exReady.bridgeSubs + 2)) :=
  ⟨rfl, subscribe_not_idempotent cbNoThrow exReady 7 optsNone msgPing rfl⟩

/-- C3: counterexample — in `ServiceExampleEventService`, a Bridge exception
during a connected `sendMessage` is caught and the call completes normally
(the method returns a state; nothing is re-raised, so no `SEND_FAILED`
error reaches the caller), and `errorCount` grows by 2, not 1 — once in the
catch block and once more inside `logError`. -/
theorem send_failure_swallowed_counterexample :
    (ServiceExampleEventService.sendMessage bridgeFail oracle0 exReady "m2"
        msgPing optsNone).errorCount = 2 ∧
    (ServiceExampleEventService.sendMessage bridgeFail oracle0 exReady "m2"
        msgPing optsNone).messagesSent = 0 ∧
    (ServiceExampleEventService.sendMessage bridgeFail oracle0 exReady "m2"
        msgPing optsNone).eventLog.map LogEntry.eventType
      = ["service.initialized", "error"] :=
  ⟨rfl, rfl, rfl⟩

/-- C3: amended — a Bridge exception during a connected send is never lost,
but the two wrappers handle it differently: `PluginEventService.sendMessage`
catches it and re-raises an `EventServiceError` with code `SEND_FAILED`
(that class has no `errorCount`; its `messageCount` was already
incremented), while `ServiceExampleEventService.sendMessage` catches it,
increments `errorCount` twice (catch block plus `logError`), logs, skips
the enqueue and the sent-metrics, and returns normally without
re-raising. -/
theorem send_failure_amended (sE : ExState) (sP : PState) (o : StampOracle)
    (sentAt t : String) (m opts : JsVal)
    (hE : sE.available = true) (hP : sP.connected = true) (ht : ¬ t = "")
    (hm : EventValidator.validateMessage m = true)
    (ho : EventValidator.validateOptions opts = true) :
    ((ServiceExampleEventService.sendMessage bridgeFail o sE t m opts).errorCount
        = sE.errorCount + 2 ∧
      (ServiceExampleEventService.sendMessage bridgeFail o sE t m opts).messagesSent
        = sE.messagesSent ∧
      (ServiceExampleEventService.sendMessage bridgeFail o sE t m opts).messageQueue
        = sE.messageQueue ∧
      (ServiceExampleEventService.sendMessage bridgeFail o sE t m opts).bridgeSends
        = sE.bridgeSends
          ++ [(t, enhanceMessage sE.pluginId sE.moduleId o opts m, false)]) ∧
    (PluginEventService.sendMessage bridgeFail sentAt sP t m opts).1
      = Except.error ⟨"Failed to send message: bridge boom", "SEND_FAILED"⟩ ∧
    (PluginEventService.sendMessage bridgeFail sentAt sP t m opts).2.messageCount
      = sP.messageCount + 1 := by
  obtain ⟨a1, a2, a3, _, _, _, a7⟩ :=
    sendMessage_err_proj bridgeFail o sE t m opts "bridge boom" hE rfl
  refine ⟨⟨a2, a3, a7, a1⟩, ?_, ?_⟩
  · rw [pSendMessage_guard_eq bridgeFail sentAt sP t m opts hP ht hm ho]
    rfl
  · rw [pSendMessage_guard_eq bridgeFail sentAt sP t m opts hP ht hm ho]
    rfl

/-- Witness for C3's amended theorem on connected instances. -/
theorem send_failure_amended_witness :
    (exReady.available = true ∧ pReady.connected = true ∧ ¬ "m2" = "" ∧
      EventValidator.validateMessage msgPing = true ∧
      EventValidator.validateOptions optsNone = true) ∧
    (((ServiceExampleEventService.sendMessage bridgeFail oracle0 exReady "m2"
        msgPing optsNone).errorCount = exReady.errorCount + 2 ∧
      (ServiceExampleEventService.sendMessage bridgeFail oracle0 exReady "m2"
        msgPing optsNone).messagesSent = exReady.messagesSent ∧
      (ServiceExampleEventService.sendMessage bridgeFail oracle0 exReady "m2"
        msgPing optsNone).messageQueue = exReady.messageQueue ∧
      (ServiceExampleEventService.sendMessage bridgeFail oracle0 exReady "m2"
        msgPing optsNone).bridgeSends
        = exReady.bridgeSends
          ++ [("m2", enhanceMessage exReady.pluginId exReady.moduleId oracle0
                optsNone msgPing, false)]) ∧
    (PluginEventService.sendMessage bridgeFail "2025-01-01T00:00:00.000Z"
        pReady "m2" msgPing optsNone).1
      = Except.error ⟨"Failed to send message: bridge boom", "SEND_FAILED"⟩ ∧
    (PluginEventService.sendMessage bridgeFail "2025-01-01T00:00:00.000Z"
        pReady "m2" msgPing optsNone).2.messageCount
      = pReady.messageCount + 1) :=
  ⟨⟨rfl, rfl, by decide, rfl, rfl⟩,
    send_failure_amended exReady pReady oracle0 "2025-01-01T00:00:00.000Z"
      "m2" msgPing optsNone rfl rfl (by decide) rfl rfl⟩

/-- C6: counterexample — on a `ServiceExampleEventService` instance whose
bridge was never set, `sendMessage` does not fail with any error code: it
returns normally, having only incremented `errorCount` and logged the
plain-text entry "Event service not available"; no `SERVICE_UNAVAILABLE`
code exists anywhere in the outcome (the resulting state is shown in
full). -/
theorem uninitialized_no_error_code_counterexample :
    ServiceExampleEventService.sendMessage bridgeOk oracle0
        (ServiceExampleEventService.mk "ServiceExample_Events" "m1") "m2"
        msgPing optsNone
      = ⟨false, "ServiceExample_Events", "m1", [], [],
          [⟨"error", "Event service not available", false⟩],
          0, 0, 0, 1, 0, [], [], []⟩ :=
  rfl

/-- C6: amended — before the bridge is set, `PluginEventService` operations
do fail with the stable code `SERVICE_UNAVAILABLE` and leave the state
untouched; `ServiceExampleEventService` operations, however, signal no
error code at all: they return normally without reaching the Bridge,
incrementing `errorCount` and appending a plain-text error log entry. -/
theorem unavailable_operations_amended
    (bridge : String → JsVal → JsVal → Except String Unit)
    (o : StampOracle) (sentAt t : String) (m opts : JsVal) (cb : Nat)
    (cbT : Nat → JsVal → Bool) (sE : ExState) (sP : PState)
    (hE : sE.available = false) (hP : sP.connected = false) :
    ((PluginEventService.sendMessage bridge sentAt sP t m opts).1
        = Except.error ⟨"Event Service not available. Ensure setServiceBridge() was called.",
            "SERVICE_UNAVAILABLE"⟩ ∧
      (PluginEventService.sendMessage bridge sentAt sP t m opts).2 = sP) ∧
    ((PluginEventService.subscribeToMessages sP cb opts).1
        = Except.error ⟨"Event Service not available. Ensure setServiceBridge() was called.",
            "SERVICE_UNAVAILABLE"⟩ ∧
      (PluginEventService.subscribeToMessages sP cb opts).2 = sP) ∧
    ((ServiceExampleEventService.sendMessage bridge o sE t m opts).bridgeSends
        = sE.bridgeSends ∧
      (ServiceExampleEventService.sendMessage bridge o sE t m opts).messageQueue
        = sE.messageQueue ∧
      (ServiceExampleEventService.sendMessage bridge o sE t m opts).errorCount
        = sE.errorCount + 1 ∧
      (ServiceExampleEventService.sendMessage bridge o sE t m opts).eventLog
        = sE.eventLog ++ [⟨"error", "Event service not available", false⟩]) ∧
    ((ServiceExampleEventService.subscribeToMessages cbT sE cb opts).bridgeSubs
        = sE.bridgeSubs ∧
      (ServiceExampleEventService.subscribeToMessages cbT sE cb opts).subscribers
        = sE.subscribers ∧
      (ServiceExampleEventService.subscribeToMessages cbT sE cb opts).errorCount
        = sE.errorCount + 1 ∧
      (ServiceExampleEventService.subscribeToMessages cbT sE cb opts).eventLog
        = sE.eventLog ++ [⟨"error", "Event service not available", false⟩]) := by
  have e1 : PluginEventService.sendMessage bridge sentAt sP t m opts
      = (Except.error ⟨"Event Service not available. Ensure setServiceBridge() was called.",
          "SERVICE_UNAVAILABLE"⟩, sP) := by
    simp only [PluginEventService.sendMessage]
    rw [if_pos hP]
  have e2 : PluginEventService.subscribeToMessages sP cb opts
      = (Except.error ⟨"Event Service not available. Ensure setServiceBridge() was called.",
          "SERVICE_UNAVAILABLE"⟩, sP) := by
    simp only [PluginEventService.subscribeToMessages]
    rw [if_pos hP]
  have e3 : ServiceExampleEventService.sendMessage bridge o sE t m opts
      = logErrorState "Event service not available" sE := by
    simp only [ServiceExampleEventService.sendMessage]
    rw [if_pos hE]
  have e4 : ServiceExampleEventService.subscribeToMessages cbT sE cb opts
      = logErrorState "Event service not available" sE := by
    simp only [ServiceExampleEventService.subscribeToMessages]
    rw [if_pos hE]
  rw [e1, e2, e3, e4]
  simp

/-- Witness for C6's amended theorem on freshly constructed instances. -/
theorem unavailable_operations_amended_witness :
    ((ServiceExampleEventService.mk "ServiceExample_Events" "m1").available
        = false ∧
      (PluginEventService.mk "ServiceExample_Events" "m1").connected = false) ∧
    (PluginEventService.sendMessage bridgeOk "2025-01-01T00:00:00.000Z"
        (PluginEventService.mk "ServiceExample_Events" "m1") "m2" msgPing
        optsNone).1
      = Except.error ⟨"Event Service not available. Ensure setServiceBridge() was called.",
          "SERVICE_UNAVAILABLE"⟩ ∧
    (PluginEventService.subscribeToMessages
        (PluginEventService.mk "ServiceExample_Events" "m1") 7 optsNone).1
      = Except.error ⟨"Event Service not available. Ensure setServiceBridge() was called.",
          "SERVICE_UNAVAILABLE"⟩ ∧
    (ServiceExampleEventService.sendMessage bridgeOk oracle0
        (ServiceExampleEventService.mk "ServiceExample_Events" "m1") "m2"
        msgPing optsNone).errorCount
      = (ServiceExampleEventService.mk "ServiceExample_Events" "m1").errorCount
        + 1 :=
  ⟨⟨rfl, rfl⟩,
    ((unavailable_operations_amended bridgeOk oracle0 "2025-01-01T00:00:00.000Z"
      "m2" msgPing optsNone 7 cbNoThrow
      (ServiceExampleEventService.mk "ServiceExample_Events" "m1")
      (PluginEventService.mk "ServiceExample_Events" "m1") rfl rfl).1.1),
    ((unavailable_operations_amended bridgeOk oracle0 "2025-01-01T00:00:00.000Z"
      "m2" msgPing optsNone 7 cbNoThrow
      (ServiceExampleEventService.mk "ServiceExample_Events" "m1")
      (PluginEventService.mk "ServiceExample_Events" "m1") rfl rfl).2.1.1),
    ((unavailable_operations_amended bridgeOk oracle0 "2025-01-01T00:00:00.000Z"
      "m2" msgPing optsNone 7 cbNoThrow
      (ServiceExampleEventService.mk "ServiceExample_Events" "m1")
      (PluginEventService.mk "ServiceExample_Events" "m1") rfl rfl).2.2.1.2.2.1)⟩

/-- C7: counterexample — broadcasting over ["a", "b", "c"] with a Bridge
that throws only for "b" does reach "a" and "c", but after the one failed
target `errorCount` is 2, not 1 (the catch block and `logError` each
increment it); and `broadcastMessage` produces no aggregate per-target
result — it returns nothing beyond the mutated state. -/
theorem broadcast_errorCount_counterexample :
    (ServiceExampleEventService.broadcastMessage (bridgeFailOn "b")
        (fun _ => oracle0) "bcast-1" exReady ["a", "b", "c"] msgPing
        optsNone).errorCount = 2 ∧
    (ServiceExampleEventService.broadcastMessage (bridgeFailOn "b")
        (fun _ => oracle0) "bcast-1" exReady ["a", "b", "c"] msgPing
        optsNone).bridgeSends.map (fun p => (p.1, p.2.2))
      = [("a", true), ("b", false), ("c", true)] ∧
    (ServiceExampleEventService.broadcastMessage (bridgeFailOn "b")
        (fun _ => oracle0) "bcast-1" exReady ["a", "b", "c"] msgPing
        optsNone).messagesSent = 2 :=
  ⟨rfl, rfl, rfl⟩

/-- C7: amended — when the Bridge throws only for target `b`, the sends to
`a` and `c` are still attempted and delivered (each target's send is
attempted independently, in order) and `broadcastMessage` itself never
throws (it is a total function with no error outcome); but it returns no
aggregate per-target result, and the one failed target leaves `errorCount`
at its old value plus 2, not plus 1. -/
theorem broadcast_partial_failure_amended (s : ExState) (a b c bid : String)
    (oracles : String → StampOracle) (msg opts : JsVal)
    (h : s.available = true) (hab : ¬ a = b) (hcb : ¬ c = b) :
    (ServiceExampleEventService.broadcastMessage (bridgeFailOn b) oracles bid
        s [a, b, c] msg opts).errorCount = s.errorCount + 2 ∧
    (ServiceExampleEventService.broadcastMessage (bridgeFailOn b) oracles bid
        s [a, b, c] msg opts).messagesSent = s.messagesSent + 2 ∧
    (ServiceExampleEventService.broadcastMessage (bridgeFailOn b) oracles bid
        s [a, b, c] msg opts).bridgeSends
      = s.bridgeSends
        ++ [(a, enhanceMessage s.pluginId s.moduleId (oracles a) opts
              (broadcastEnvelope bid [a, b, c] a msg), true),
            (b, enhanceMessage s.pluginId s.moduleId (oracles b) opts
              (broadcastEnvelope bid [a, b, c] b msg), false),
            (c, enhanceMessage s.pluginId s.moduleId (oracles c) opts
              (broadcastEnvelope bid [a, b, c] c msg), true)] := by
  obtain ⟨a1, a2, a3, a4, a5, a6⟩ :=
    sendMessage_ok_proj (bridgeFailOn b) (oracles a) s a
      (broadcastEnvelope bid [a, b, c] a msg) opts h
      (by simp [bridgeFailOn, hab])
  set s1 := ServiceExampleEventService.sendMessage (bridgeFailOn b)
    (oracles a) s a (broadcastEnvelope bid [a, b, c] a msg) opts with hs1
  obtain ⟨b1, b2, b3, b4, b5, b6, b7⟩ :=
    sendMessage_err_proj (bridgeFailOn b) (oracles b) s1 b
      (broadcastEnvelope bid [a, b, c] b msg) opts "bridge boom" a4
      (by simp [bridgeFailOn])
  set s2 := ServiceExampleEventService.sendMessage (bridgeFailOn b)
    (oracles b) s1 b (broadcastEnvelope bid [a, b, c] b msg) opts with hs2
  obtain ⟨c1, c2, c3, c4, c5, c6⟩ :=
    sendMessage_ok_proj (bridgeFailOn b) (oracles c) s2 c
      (broadcastEnvelope bid [a, b, c] c msg) opts b4
      (by simp [bridgeFailOn, hcb])
  set s3 := ServiceExampleEventService.sendMessage (bridgeFailOn b)
    (oracles c) s2 c (broadcastEnvelope bid [a, b, c] c msg) opts with hs3
  have hbc : ServiceExampleEventService.broadcastMessage (bridgeFailOn b)
      oracles bid s [a, b, c] msg opts
      = logEventState "broadcast.sent" "Broadcast sent" s3 := rfl
  rw [hbc]
  refine ⟨?_, ?_, ?_⟩
  · rw [logEventState_errorCount, c2, b2, a2]
  · rw [logEventState_messagesSent, c3, b3, a3]
  · rw [logEventState_bridgeSends, c1, b5, b6, a5, a6, b1, a5, a6, a1]
    simp

/-- Witness for C7's amended theorem at concrete targets. -/
theorem broadcast_partial_failure_amended_witness :
    (exReady.available = true ∧ ¬ "a" = "b" ∧ ¬ "c" = "b") ∧
    ((ServiceExampleEventService.broadcastMessage (bridgeFailOn "b")
        (fun _ => oracle0) "bcast-1" exReady ["a", "b", "c"] msgPing
        optsNone).errorCount = exReady.errorCount + 2 ∧
    (ServiceExampleEventService.broadcastMessage (bridgeFailOn "b")
        (fun _ => oracle0) "bcast-1" exReady ["a", "b", "c"] msgPing
        optsNone).messagesSent = exReady.messagesSent + 2 ∧
    (ServiceExampleEventService.broadcastMessage (bridgeFailOn "b")
        (fun _ => oracle0) "bcast-1" exReady ["a", "b", "c"] msgPing
        optsNone).bridgeSends
      = exReady.bridgeSends
        ++ [("a", enhanceMessage exReady.pluginId exReady.moduleId oracle0
              optsNone (broadcastEnvelope "bcast-1" ["a", "b", "c"] "a"
                msgPing), true),
            ("b", enhanceMessage exReady.pluginId exReady.moduleId oracle0
              optsNone (broadcastEnvelope "bcast-1" ["a", "b", "c"] "b"
                msgPing), false),
            ("c", enhanceMessage exReady.pluginId exReady.moduleId oracle0
              optsNone (broadcastEnvelope "bcast-1" ["a", "b", "c"] "c"
                msgPing), true)]) :=
  ⟨⟨rfl, by decide, by decide⟩,
    broadcast_partial_failure_amended exReady "a" "b" "c" "bcast-1"
      (fun _ => oracle0) msgPing optsNone rfl (by decide) (by decide)⟩

/-- C10: `getQueueStatus` and `getEventLog` allocate a fresh array for the
returned copy — a reference distinct from the instance's own array —
holding the same contents; the heap is only extended (every existing cell,
hence every instance field, is unchanged), and writing through the
returned reference afterwards leaves the instance's array untouched, so
mutating a returned array cannot affect any later operation. -/
theorem getters_return_fresh_copies (hq0 : ArrayHeap JsVal)
    (hl0 : ArrayHeap LogEntry) (queueRef logRef : Nat) (ys : List JsVal)
    (zs : List LogEntry) (h1 : queueRef < hq0.cells.length)
    (h2 : logRef < hl0.cells.length) :
    (¬ (ServiceExampleEventService.getQueueStatus hq0 queueRef).2.2 = queueRef ∧
      (ServiceExampleEventService.getQueueStatus hq0 queueRef).1.cells
        = hq0.cells ++ [hq0.read queueRef] ∧
      (ServiceExampleEventService.getQueueStatus hq0 queueRef).2.1
        = (hq0.read queueRef).length ∧
      ((ServiceExampleEventService.getQueueStatus hq0 queueRef).1).read
          (ServiceExampleEventService.getQueueStatus hq0 queueRef).2.2
        = hq0.read queueRef ∧
      (((ServiceExampleEventService.getQueueStatus hq0 queueRef).1).write
          (ServiceExampleEventService.getQueueStatus hq0 queueRef).2.2
          ys).read queueRef
        = hq0.read queueRef) ∧
    (¬ (ServiceExampleEventService.getEventLog hl0 logRef).2 = logRef ∧
      (ServiceExampleEventService.getEventLog hl0 logRef).1.cells
        = hl0.cells ++ [hl0.read logRef] ∧
      ((ServiceExampleEventService.getEventLog hl0 logRef).1).read
          (ServiceExampleEventService.getEventLog hl0 logRef).2
        = hl0.read logRef ∧
      (((ServiceExampleEventService.getEventLog hl0 logRef).1).write
          (ServiceExampleEventService.getEventLog hl0 logRef).2 zs).read
          logRef
        = hl0.read logRef) := by
  refine ⟨⟨?_, rfl, rfl, ?_, ?_⟩, ⟨?_, rfl, ?_, ?_⟩⟩
  · intro he
    have hlen : (ServiceExampleEventService.getQueueStatus hq0 queueRef).2.2
        = hq0.cells.length := rfl
    rw [hlen] at he
    omega
  · exact ArrayHeap.read_alloc_new hq0 (hq0.read queueRef)
  · show ((hq0.alloc (hq0.read queueRef)).1.write hq0.cells.length ys).read
        queueRef = hq0.read queueRef
    rw [ArrayHeap.read_write_ne _ _ _ _ (by omega)]
    exact ArrayHeap.read_alloc_old hq0 (hq0.read queueRef) queueRef h1
  · intro he
    have hlen : (ServiceExampleEventService.getEventLog hl0 logRef).2
        = hl0.cells.length := rfl
    rw [hlen] at he
    omega
  · exact ArrayHeap.read_alloc_new hl0 (hl0.read logRef)
  · show ((hl0.alloc (hl0.read logRef)).1.write hl0.cells.length zs).read
        logRef = hl0.read logRef
    rw [ArrayHeap.read_write_ne _ _ _ _ (by omega)]
    exact ArrayHeap.read_alloc_old hl0 (hl0.read logRef) logRef h2

/-- Witness for C10 on a one-cell heap holding the instance arrays. -/
theorem getters_return_fresh_copies_witness :
    ((0 : Nat) < (ArrayHeap.mk [[msgPing]] : ArrayHeap JsVal).cells.length ∧
      (0 : Nat) < (ArrayHeap.mk [[(⟨"error", "x", false⟩ : LogEntry)]]
        : ArrayHeap LogEntry).cells.length) ∧
    (¬ (ServiceExampleEventService.getQueueStatus
          (ArrayHeap.mk [[msgPing]]) 0).2.2 = 0 ∧
      ((ServiceExampleEventService.getQueueStatus
          (ArrayHeap.mk [[msgPing]]) 0).1.write
        (ServiceExampleEventService.getQueueStatus
          (ArrayHeap.mk [[msgPing]]) 0).2.2 []).read 0
        = (ArrayHeap.mk [[msgPing]] : ArrayHeap JsVal).read 0) :=
  ⟨⟨by decide, by decide⟩,
    (getters_return_fresh_copies (ArrayHeap.mk [[msgPing]])
      (ArrayHeap.mk [[(⟨"error", "x", false⟩ : LogEntry)]]) 0 0 [] []
      (by decide) (by decide)).1.1,
    ((getters_return_fresh_copies (ArrayHeap.mk [[msgPing]])
      (ArrayHeap.mk [[(⟨"error", "x", false⟩ : LogEntry)]]) 0 0 [] []
      (by decide) (by decide)).1.2.2.2.2)⟩
